import Mathlib

/-!
# Verification of the iTerm2 Python notification subscription/dispatch module

Shallow embedding of `api/library/python/iterm2/iterm2/notifications.py`:
the process-wide keyed handler registry, the subscribe/unsubscribe handshake
with optimistic local registration and rollback, the inbound-message
dispatcher with the session-to-global fallback rule, and the RPC signature
codec.

Modelling conventions:
- Python tuples used as registry keys are heterogeneous, so a key is a
  `List PyVal` where `PyVal` covers the value kinds that actually occur in
  key positions (`None`, strings, protobuf enum ints).
- Handlers are coroutine objects compared by identity; we model them as
  opaque numeric identities (`Handler := Nat`).
- The network is external: the wire response status consumed by a call is an
  explicit argument, and the wire requests a call sends are returned in a
  list, in send order.
- Fallible Python code returns `Except PyError`.
-/

set_option linter.unusedVariables false

namespace ITerm2Notif

/-- A Python value as it can occur inside a subscription-key tuple:
`None`, a string, or a protobuf enum integer. -/
inductive PyVal where
  | none
  | str (s : String)
  | int (n : Nat)
  deriving DecidableEq

/-- A subscription key: a Python tuple of `PyVal`s.  The shapes actually
constructed by the module are `(session-or-None, type)`,
`(session-or-None, type, rpc-signature-string)`,
`(scope, identifier, name, NOTIFY_ON_VARIABLE_CHANGE)` and
`(guid, NOTIFY_ON_PROFILE_CHANGE)`. -/
abbrev Key := List PyVal

/-- A handler (Python coroutine function).  Python compares handlers with
`==`, which is identity for function objects; we model the identity as a
natural number. -/
abbrev Handler := Nat

/-! ## Protobuf enum tags

The numeric values of the generated `iterm2.api_pb2` `NotificationType` enum
are outside the reviewed source (protobuf-generated code); distinct opaque
tags are used here and no result depends on the concrete numerals, only on
their distinctness. -/

def NOTIFY_ON_KEYSTROKE : Nat := 1
def NOTIFY_ON_SCREEN_UPDATE : Nat := 2
def NOTIFY_ON_PROMPT : Nat := 3
def NOTIFY_ON_LOCATION_CHANGE : Nat := 4
def NOTIFY_ON_CUSTOM_ESCAPE_SEQUENCE : Nat := 5
def NOTIFY_ON_NEW_SESSION : Nat := 6
def NOTIFY_ON_TERMINATE_SESSION : Nat := 7
def NOTIFY_ON_LAYOUT_CHANGE : Nat := 8
def NOTIFY_ON_FOCUS_CHANGE : Nat := 9
def NOTIFY_ON_SERVER_ORIGINATED_RPC : Nat := 10
def NOTIFY_ON_BROADCAST_CHANGE : Nat := 11
def NOTIFY_ON_PROFILE_CHANGE : Nat := 12
def NOTIFY_ON_VARIABLE_CHANGE : Nat := 13
def KEYSTROKE_FILTER : Nat := 14

/-- Modelled from the spec: the protobuf-generated
`NotificationResponse.Status` enum (`api_pb2`) is outside the reviewed
source.  The spec lists `Ok`, `AlreadySubscribed` and other failure codes;
the reviewed code compares the status only against `OK` and
`ALREADY_SUBSCRIBED` and otherwise uses its name string. -/
inductive Status where
  | ok
  | alreadySubscribed
  | serverError
  | requestMalformed
  | notSubscribed
  deriving DecidableEq

/-- `iterm2.api_pb2.NotificationResponse.Status.Name(status)`. -/
def Status.name : Status → String
  | .ok => "OK"
  | .alreadySubscribed => "ALREADY_SUBSCRIBED"
  | .serverError => "SERVER_ERROR"
  | .requestMalformed => "REQUEST_MALFORMED"
  | .notSubscribed => "NOT_SUBSCRIBED"

/-- The exceptions the reviewed module can raise. -/
inductive PyError where
  /-- `dict[key]` with an absent key. -/
  | keyError
  /-- `list.remove(x)` with `x` not in the list, or tuple unpacking of the
  wrong arity. -/
  | valueError
  /-- `assert False`. -/
  | assertionError
  /-- attribute access on a name the module object does not have. -/
  | attributeError (attr : String)
  /-- `SubscriptionException`, carrying the status name string. -/
  | subscriptionException (statusName : String)
  deriving DecidableEq

/-! ## The handler registry (`_get_handlers()` dict)

A Python dict modelled as an association list in insertion order with
dict-style update semantics. -/

/-- The `_get_handlers()` dict: key → ordered handler list. -/
abbrev Registry := List (Key × List Handler)

/-- Dict lookup: `handlers[key]` / `key in handlers`. -/
def Registry.find : Registry → Key → Option (List Handler)
  | [], _ => Option.none
  | (k, v) :: rest, key => if k = key then some v else Registry.find rest key

/-- Dict lookup with a default for the absent case. -/
def Registry.findD (r : Registry) (key : Key) (d : List Handler) : List Handler :=
  (Registry.find r key).getD d

/-- `key in handlers`. -/
def Registry.contains (r : Registry) (key : Key) : Bool :=
  (Registry.find r key).isSome

/-- Dict store: `handlers[key] = v` (replaces in place, or appends a new
entry at the end, as a Python dict does). -/
def Registry.set : Registry → Key → List Handler → Registry
  | [], key, v => [(key, v)]
  | (k, w) :: rest, key, v =>
      if k = key then (key, v) :: rest else (k, w) :: Registry.set rest key v

/-- Dict delete: `del handlers[key]` (removes the entry for `key`). -/
def Registry.erase : Registry → Key → Registry
  | [], _ => []
  | (k, w) :: rest, key =>
      if k = key then rest else (k, w) :: Registry.erase rest key

/-- Dict well-formedness: pairwise-distinct keys, which every dict has and
every operation preserves. -/
def Registry.WF (r : Registry) : Prop := (r.map Prod.fst).Nodup

/-! ## Module-level wire-request records

Network traffic is modelled as data: each call returns the list of wire
requests it sent, in order. -/

/-- `RPCRegistrationRequest` / the `rpc` submessage of a
`ServerOriginatedRPCNotification`: a procedure name and its argument names
in declared order.  Only `name` and the argument `name`s are read by the
signature codec; the remaining protobuf fields (timeout, defaults, role,
role attributes) do not influence any behaviour modelled here. -/
structure RPC where
  name : String
  arguments : List String
  deriving DecidableEq

/-- `KeystrokeMonitorRequest`: an opaque list of patterns to ignore
(contents never read by the reviewed module after construction). -/
structure KeystrokeMonitorRequest where
  patternsToIgnore : List String
  deriving DecidableEq

/-- `VariableMonitorRequest`.  In `async_unsubscribe` the fields are filled
from key components, so they are `PyVal`s. -/
structure VariableMonitorRequest where
  name : PyVal
  scope : PyVal
  identifier : PyVal
  deriving DecidableEq

/-- `ProfileChangeRequest`. -/
structure ProfileChangeRequest where
  guid : String
  deriving DecidableEq

/-- One call to `iterm2.rpc.async_notification_request`, with the arguments
the reviewed module passes. -/
structure NotificationRequest where
  subscribe : Bool
  notificationType : PyVal
  session : PyVal
  rpcRegistrationRequest : Option RPC
  keystrokeMonitorRequest : Option KeystrokeMonitorRequest
  variableMonitorRequest : Option VariableMonitorRequest
  profileChangeRequest : Option ProfileChangeRequest
  deriving DecidableEq

/-! ## RPC signature codec

Python compares strings lexicographically by Unicode code point; `sorted`
is a stable sort under that order. -/

/-- Code-point lexicographic `≤` on character lists (Python string order). -/
def charsLe : List Char → List Char → Bool
  | [], _ => true
  | _ :: _, [] => false
  | c :: cs, d :: ds =>
      if c.toNat < d.toNat then true
      else if d.toNat < c.toNat then false
      else charsLe cs ds

/-- Python string `≤`. -/
def pyStrLe (a b : String) : Prop := charsLe a.data b.data = true

instance pyStrLeDec : DecidableRel pyStrLe := fun a b =>
  (inferInstance : Decidable (charsLe a.data b.data = true))

/-- Python `sorted` on a list of strings, modelled as insertion sort under
the code-point lexicographic order (`sorted` is a comparison sort, so any
sorted permutation characterises it; insertion sort is executable). -/
def pySorted (l : List String) : List String := List.insertionSort pyStrLe l

/-- `_string_rpc_registration_request`: `None` maps to `None`; otherwise the
argument names are sorted, joined with commas and wrapped as
`name(arg1,arg2,...)`. -/
def stringRpcRegistrationRequest : Option RPC → Option String
  | Option.none => Option.none
  | some rpc =>
      some (rpc.name ++ "(" ++ String.intercalate "," (pySorted rpc.arguments) ++ ")")

/-! ## Local handler (de)registration -/

/-- `_register_notification_handler_impl`: append to the key's list,
creating the entry if absent. -/
def registerNotificationHandlerImpl (r : Registry) (key : Key) (coro : Handler) :
    Registry :=
  match Registry.find r key with
  | some l => Registry.set r key (l ++ [coro])
  | Option.none => Registry.set r key [coro]

/-- `_unregister_notification_handler_impl`: if the key is present and the
handler is in its list, remove the FIRST occurrence of the handler
(`list.remove`).  The key is kept even if its list becomes empty. -/
def unregisterNotificationHandlerImpl (r : Registry) (key : Key) (coro : Handler) :
    Registry :=
  match Registry.find r key with
  | some l => if coro ∈ l then Registry.set r key (l.erase coro) else r
  | Option.none => r

/-- Key construction shared by `_register_notification_handler` and
`_unregister_notification_handler`: `(session, type)` without an RPC
signature string, `(session, type, signature)` with one. -/
def handlerKey (session : PyVal) (rpcString : Option String) (ntype : PyVal) : Key :=
  match rpcString with
  | Option.none => [session, ntype]
  | some s => [session, ntype, PyVal.str s]

/-- `_register_notification_handler`. -/
def registerNotificationHandler (r : Registry) (session : PyVal)
    (rpcString : Option String) (ntype : PyVal) (coro : Handler) : Registry :=
  registerNotificationHandlerImpl r (handlerKey session rpcString ntype) coro

/-- `_unregister_notification_handler`. -/
def unregisterNotificationHandler (r : Registry) (session : PyVal)
    (rpcString : Option String) (ntype : PyVal) (coro : Handler) : Registry :=
  unregisterNotificationHandlerImpl r (handlerKey session rpcString ntype) coro

/-! ## `_async_subscribe` -/

/-- A subscription token: the `(key, callback)` pair returned by
`_async_subscribe` on success. -/
abbrev Token := Key × Handler

/-- Python truthiness of the optional `key` argument (`if key:`):
`None` and the empty tuple are falsy. -/
def pyTruthyKey : Option Key → Bool
  | Option.none => false
  | some k => !k.isEmpty

instance exceptDecEq {ε α : Type} [DecidableEq ε] [DecidableEq α] :
    DecidableEq (Except ε α) := fun a b =>
  match a, b with
  | Except.ok x, Except.ok y =>
      if h : x = y then isTrue (by rw [h]) else isFalse (by intro hc; cases hc; exact h rfl)
  | Except.error x, Except.error y =>
      if h : x = y then isTrue (by rw [h]) else isFalse (by intro hc; cases hc; exact h rfl)
  | Except.ok _, Except.error _ => isFalse (by intro hc; cases hc)
  | Except.error _, Except.ok _ => isFalse (by intro hc; cases hc)

/-- Result of a `_async_subscribe` call: the registry afterwards, the wire
requests sent (in order), and either the Python return value (a token for
subscribe, nothing for unsubscribe) or the exception raised. -/
structure SubscribeResult where
  registry : Registry
  requests : List NotificationRequest
  outcome : Except PyError (Option Token)
  deriving DecidableEq

/-- `_async_subscribe(connection, subscribe, notification_type, callback,
session, rpc_registration_request, keystroke_monitor_request,
variable_monitor_request, key, profile_change_request)`.

The status of the awaited `SubscribeResponse` is the explicit `status`
argument (the network is external).  Control flow from the source:
optimistic local registration when subscribing; on a non-`OK`,
non-`ALREADY_SUBSCRIBED` status the registration is undone and a
`SubscriptionException` carrying the status name is raised; an unsubscribe
with `OK` status unregisters locally and returns; any other unsubscribe
status raises. -/
def asyncSubscribe (r : Registry) (subscribe : Bool) (notificationType : PyVal)
    (callback : Handler) (session : PyVal) (rpcRegistrationRequest : Option RPC)
    (keystrokeMonitorRequest : Option KeystrokeMonitorRequest)
    (variableMonitorRequest : Option VariableMonitorRequest)
    (keyArg : Option Key) (profileChangeRequest : Option ProfileChangeRequest)
    (status : Status) : SubscribeResult :=
  let transformedSession := if session = PyVal.none then PyVal.str "all" else session
  -- Register locally in case iTerm2 responds with an RPC immediately.
  let r1 :=
    if subscribe then
      if pyTruthyKey keyArg then
        registerNotificationHandlerImpl r (keyArg.getD []) callback
      else
        registerNotificationHandler r session
          (stringRpcRegistrationRequest rpcRegistrationRequest) notificationType callback
    else r
  let req : NotificationRequest :=
    { subscribe := subscribe
      notificationType := notificationType
      session := transformedSession
      rpcRegistrationRequest := rpcRegistrationRequest
      keystrokeMonitorRequest := keystrokeMonitorRequest
      variableMonitorRequest := variableMonitorRequest
      profileChangeRequest := profileChangeRequest }
  let statusOk := status = Status.ok
  let unreg (r2 : Registry) : Registry :=
    if pyTruthyKey keyArg then
      unregisterNotificationHandlerImpl r2 (keyArg.getD []) callback
    else
      unregisterNotificationHandler r2 session
        (stringRpcRegistrationRequest rpcRegistrationRequest) notificationType callback
  if subscribe then
    if statusOk ∨ status = Status.alreadySubscribed then
      { registry := r1
        requests := [req]
        outcome := Except.ok (some (if pyTruthyKey keyArg then (keyArg.getD [], callback)
          else ([session, notificationType], callback))) }
    else
      -- Uh oh, undo the registration, then raise.
      { registry := unreg r1
        requests := [req]
        outcome := Except.error (PyError.subscriptionException status.name) }
  else
    if statusOk then
      -- Normal code path for unsubscribe.
      { registry := unreg r1
        requests := [req]
        outcome := Except.ok Option.none }
    else
      { registry := r1
        requests := [req]
        outcome := Except.error (PyError.subscriptionException status.name) }

/-! ## `async_unsubscribe` -/

/-- Result of an `async_unsubscribe` call. -/
structure UnsubscribeResult where
  registry : Registry
  requests : List NotificationRequest
  outcome : Except PyError Unit
  deriving DecidableEq

/-- `async_unsubscribe(connection, token)`.

`_get_handlers()[key]` raises `KeyError` on an absent key;
`coros.remove(coro)` raises `ValueError` on an absent handler.  When the
handler list becomes empty the key is deleted and a reverse
(`subscribe=False`) request is sent: length-2 keys through the default
path, variable-change keys through a rebuilt `VariableMonitorRequest`, and
any other key shape hits `assert False`. -/
def asyncUnsubscribe (r : Registry) (token : Token) (status : Status) :
    UnsubscribeResult :=
  let key := token.1
  let coro := token.2
  match Registry.find r key with
  | Option.none => { registry := r, requests := [], outcome := Except.error PyError.keyError }
  | some coros =>
      if coro ∈ coros then
        let coros2 := coros.erase coro
        if !coros2.isEmpty then
          { registry := Registry.set r key coros2
            requests := []
            outcome := Except.ok () }
        else
          let r2 := Registry.erase r key
          match key with
          | [sessionV, ntypeV] =>
              let res := asyncSubscribe r2 false ntypeV coro sessionV Option.none
                Option.none Option.none Option.none Option.none status
              { registry := res.registry
                requests := res.requests
                outcome := match res.outcome with
                  | Except.ok _ => Except.ok ()
                  | Except.error e => Except.error e }
          | _ =>
              if key.getLast? = some (PyVal.int NOTIFY_ON_VARIABLE_CHANGE) then
                match key with
                | [scopeV, identifierV, nameV, ntypeV] =>
                    let request : VariableMonitorRequest :=
                      { name := nameV, scope := scopeV, identifier := identifierV }
                    let res := asyncSubscribe r2 false ntypeV coro PyVal.none
                      Option.none Option.none (some request) (some key) Option.none status
                    { registry := res.registry
                      requests := res.requests
                      outcome := match res.outcome with
                        | Except.ok _ => Except.ok ()
                        | Except.error e => Except.error e }
                | _ =>
                    -- tuple unpacking `scope, identifier, name, t = key` fails
                    { registry := r2, requests := [],
                      outcome := Except.error PyError.valueError }
              else
                -- The key is custom: `assert False`
                { registry := r2, requests := [],
                  outcome := Except.error PyError.assertionError }
      else
        { registry := r, requests := [], outcome := Except.error PyError.valueError }

/-! ## Inbound messages and the dispatcher

The protobuf `Notification` union is modelled as a structure of optional
sub-messages; `HasField` is `Option.isSome`.  Each sub-message carries the
fields the reviewed module reads (plus an opaque `payload` tag where the
module reads nothing, so that distinct wire messages stay distinguishable). -/

/-- `KeystrokeNotification` (fields read: `session`). -/
structure KeystrokeNotification where
  session : String
  payload : Nat
  deriving DecidableEq

/-- `ScreenUpdateNotification`. -/
structure ScreenUpdateNotification where
  session : String
  payload : Nat
  deriving DecidableEq

/-- `PromptNotification`. -/
structure PromptNotification where
  session : String
  payload : Nat
  deriving DecidableEq

/-- `LocationChangeNotification`. -/
structure LocationChangeNotification where
  session : String
  payload : Nat
  deriving DecidableEq

/-- `CustomEscapeSequenceNotification`. -/
structure CustomEscapeSequenceNotification where
  session : String
  payload : Nat
  deriving DecidableEq

/-- `NewSessionNotification` (field read elsewhere: `uniqueIdentifier`). -/
structure NewSessionNotification where
  uniqueIdentifier : String
  deriving DecidableEq

/-- `TerminateSessionNotification`. -/
structure TerminateSessionNotification where
  payload : Nat
  deriving DecidableEq

/-- `LayoutChangedNotification`. -/
structure LayoutChangedNotification where
  payload : Nat
  deriving DecidableEq

/-- `FocusChangedNotification`. -/
structure FocusChangedNotification where
  payload : Nat
  deriving DecidableEq

/-- `ServerOriginatedRPCNotification` (fields read: `rpc`, `request_id`).
Accessing an unset protobuf submessage field yields a default instance,
never `None`, so `rpc` is a plain `RPC`. -/
structure ServerOriginatedRPCNotification where
  rpc : RPC
  requestId : Nat
  deriving DecidableEq

/-- `BroadcastDomainsChangedNotification`. -/
structure BroadcastDomainsChangedNotification where
  payload : Nat
  deriving DecidableEq

/-- `VariableChangedNotification` (fields read: `scope`, `identifier`,
`name`). -/
structure VariableChangedNotification where
  scope : Nat
  identifier : String
  name : String
  deriving DecidableEq

/-- `ProfileChangedNotification` (field read: `guid`). -/
structure ProfileChangedNotification where
  guid : String
  deriving DecidableEq

/-- The `Notification` protobuf message: optional sub-messages, tested with
`HasField` in the order of the source's `elif` chain. -/
structure Notification where
  keystrokeNotification : Option KeystrokeNotification
  screenUpdateNotification : Option ScreenUpdateNotification
  promptNotification : Option PromptNotification
  locationChangeNotification : Option LocationChangeNotification
  customEscapeSequenceNotification : Option CustomEscapeSequenceNotification
  newSessionNotification : Option NewSessionNotification
  terminateSessionNotification : Option TerminateSessionNotification
  layoutChangedNotification : Option LayoutChangedNotification
  focusChangedNotification : Option FocusChangedNotification
  serverOriginatedRpcNotification : Option ServerOriginatedRPCNotification
  broadcastDomainsChanged : Option BroadcastDomainsChangedNotification
  variableChangedNotification : Option VariableChangedNotification
  profileChangedNotification : Option ProfileChangedNotification
  deriving DecidableEq

/-- A `Notification` with every field unset, for building concrete
messages by overriding single fields. -/
def Notification.empty : Notification :=
  { keystrokeNotification := Option.none
    screenUpdateNotification := Option.none
    promptNotification := Option.none
    locationChangeNotification := Option.none
    customEscapeSequenceNotification := Option.none
    newSessionNotification := Option.none
    terminateSessionNotification := Option.none
    layoutChangedNotification := Option.none
    focusChangedNotification := Option.none
    serverOriginatedRpcNotification := Option.none
    broadcastDomainsChanged := Option.none
    variableChangedNotification := Option.none
    profileChangedNotification := Option.none }

/-- The inbound message wrapper (only its `notification` field is read). -/
structure Message where
  notification : Notification
  deriving DecidableEq

/-- The Python object passed to a handler as its second argument: in
`_get_handler_key_from_notification` the local variable `notification`
starts as the outer `Notification` and is reassigned to the matched
sub-message only in the branches that do so. -/
inductive PyObj where
  | notif (n : Notification)
  | keystrokeN (x : KeystrokeNotification)
  | screenUpdateN (x : ScreenUpdateNotification)
  | promptN (x : PromptNotification)
  | locationChangeN (x : LocationChangeNotification)
  | customEscapeSequenceN (x : CustomEscapeSequenceNotification)
  | newSessionN (x : NewSessionNotification)
  | terminateSessionN (x : TerminateSessionNotification)
  | layoutChangedN (x : LayoutChangedNotification)
  | focusChangedN (x : FocusChangedNotification)
  | variableChangedN (x : VariableChangedNotification)
  deriving DecidableEq

/-- `_get_handler_key_from_notification(notification)`: derive the
subscription key by testing the union fields in source order, and return
the (possibly reassigned) `notification` local.  Note that the
`server_originated_rpc_notification`, `broadcast_domains_changed` and
`profile_changed_notification` branches do NOT reassign `notification`, so
the outer object is returned for those kinds. -/
def getHandlerKeyFromNotification (n : Notification) : Option Key × PyObj :=
  match n.keystrokeNotification with
  | some sub => (some [PyVal.str sub.session, PyVal.int NOTIFY_ON_KEYSTROKE],
      PyObj.keystrokeN sub)
  | Option.none =>
  match n.screenUpdateNotification with
  | some sub => (some [PyVal.str sub.session, PyVal.int NOTIFY_ON_SCREEN_UPDATE],
      PyObj.screenUpdateN sub)
  | Option.none =>
  match n.promptNotification with
  | some sub => (some [PyVal.str sub.session, PyVal.int NOTIFY_ON_PROMPT],
      PyObj.promptN sub)
  | Option.none =>
  match n.locationChangeNotification with
  | some sub => (some [PyVal.str sub.session, PyVal.int NOTIFY_ON_LOCATION_CHANGE],
      PyObj.locationChangeN sub)
  | Option.none =>
  match n.customEscapeSequenceNotification with
  | some sub => (some [PyVal.str sub.session, PyVal.int NOTIFY_ON_CUSTOM_ESCAPE_SEQUENCE],
      PyObj.customEscapeSequenceN sub)
  | Option.none =>
  match n.newSessionNotification with
  | some sub => (some [PyVal.none, PyVal.int NOTIFY_ON_NEW_SESSION],
      PyObj.newSessionN sub)
  | Option.none =>
  match n.terminateSessionNotification with
  | some sub => (some [PyVal.none, PyVal.int NOTIFY_ON_TERMINATE_SESSION],
      PyObj.terminateSessionN sub)
  | Option.none =>
  match n.layoutChangedNotification with
  | some sub => (some [PyVal.none, PyVal.int NOTIFY_ON_LAYOUT_CHANGE],
      PyObj.layoutChangedN sub)
  | Option.none =>
  match n.focusChangedNotification with
  | some sub => (some [PyVal.none, PyVal.int NOTIFY_ON_FOCUS_CHANGE],
      PyObj.focusChangedN sub)
  | Option.none =>
  match n.serverOriginatedRpcNotification with
  | some sub =>
      (some [PyVal.none, PyVal.int NOTIFY_ON_SERVER_ORIGINATED_RPC,
        match stringRpcRegistrationRequest (some sub.rpc) with
        | some s => PyVal.str s
        | Option.none => PyVal.none],
       PyObj.notif n)
  | Option.none =>
  match n.broadcastDomainsChanged with
  | some _ => (some [PyVal.none, PyVal.int NOTIFY_ON_BROADCAST_CHANGE], PyObj.notif n)
  | Option.none =>
  match n.variableChangedNotification with
  | some sub => (some [PyVal.int sub.scope, PyVal.str sub.identifier,
      PyVal.str sub.name, PyVal.int NOTIFY_ON_VARIABLE_CHANGE],
      PyObj.variableChangedN sub)
  | Option.none =>
  match n.profileChangedNotification with
  | some sub => (some [PyVal.str sub.guid, PyVal.int NOTIFY_ON_PROFILE_CHANGE],
      PyObj.notif n)
  | Option.none => (Option.none, PyObj.notif n)

/-- `_get_notification_handlers(message)`: look the derived key up in the
registry; if the key is ABSENT (not merely mapped to an empty list), try
the fallback key `(None, key[1])`. -/
def getNotificationHandlers (r : Registry) (m : Message) :
    List Handler × Option PyObj :=
  match getHandlerKeyFromNotification m.notification with
  | (Option.none, _) => ([], Option.none)
  | (some key, sub) =>
      let fallback : Key := [PyVal.none, key.getD 1 PyVal.none]
      match Registry.find r key with
      | some hs => (hs, some sub)
      | Option.none =>
          match Registry.find r fallback with
          | some hs => (hs, some sub)
          | Option.none => ([], Option.none)

/-! ### Python string formatting for the unmatched-RPC error reply -/

/-- An apostrophe (the quote character Python `repr` puts around strings). -/
def pyQuote : String := String.singleton (Char.ofNat 39)

/-- Python `repr` of a key-tuple element: `None`, a bare integer, or a
quoted string. -/
def PyVal.pyRepr : PyVal → String
  | PyVal.none => "None"
  | PyVal.str s => pyQuote ++ s ++ pyQuote
  | PyVal.int n => toString n

/-- Python `str` of a key tuple (as interpolated by `"...{}".format(key)`). -/
def keyRepr : Option Key → String
  | Option.none => "None"
  | some k => "(" ++ String.intercalate ", " (k.map PyVal.pyRepr) ++ ")"

/-- Python `str` of the optional signature string as interpolated by
`"{}".format(...)`: a string is inserted verbatim, `None` prints `None`. -/
def optStrFormat : Option String → String
  | Option.none => "None"
  | some s => s

/-- One call to `iterm2.rpc.async_send_rpc_result(connection, request_id,
is_exception, exception)` where `exception` is the dict whose only entry is
the `reason` string. -/
structure RpcReply where
  requestId : Nat
  isException : Bool
  reason : String
  deriving DecidableEq

/-- Result of `_async_dispatch_helper`: the handler invocations performed in
order (handler, second argument), the RPC error replies sent, and the
returned boolean. -/
structure DispatchResult where
  invocations : List (Handler × Option PyObj)
  replies : List RpcReply
  result : Bool
  deriving DecidableEq

/-- `_async_dispatch_helper(connection, message)`: invoke every matched
handler in order, awaiting each before the next; if no handler matched and
the message has a `server_originated_rpc_notification` field, send exactly
one error-flagged reply keyed by the request id; return whether any handler
matched. -/
def asyncDispatchHelper (r : Registry) (m : Message) : DispatchResult :=
  let found := getNotificationHandlers r m
  let invocations := found.1.map (fun h => (h, found.2))
  let replies :=
    if found.1.isEmpty then
      match m.notification.serverOriginatedRpcNotification with
      | some rpcn =>
          let kp := getHandlerKeyFromNotification m.notification
          [{ requestId := rpcn.requestId
             isException := true
             reason := "No such function: " ++
               optStrFormat (stringRpcRegistrationRequest (some rpcn.rpc)) ++
               " (key was " ++ keyRepr kp.1 ++ ")" }]
      | Option.none => []
    else []
  { invocations := invocations
    replies := replies
    result := !found.1.isEmpty }

/-! ## Public wrapper functions used by the claims -/

/-- `async_subscribe_to_keystroke_notification(connection, callback,
session)`: a default-shape subscription. -/
def asyncSubscribeToKeystrokeNotification (r : Registry) (callback : Handler)
    (session : Option String) (status : Status) : SubscribeResult :=
  asyncSubscribe r true (PyVal.int NOTIFY_ON_KEYSTROKE) callback
    (match session with | some s => PyVal.str s | Option.none => PyVal.none)
    Option.none Option.none Option.none Option.none Option.none status

/-- The attribute names the `iterm2` package object exposes to this module
(its imported submodules: `import iterm2.api_pb2`, `iterm2.connection`,
`iterm2.rpc`, `iterm2.variables`). -/
def iterm2ModuleAttrs : List String := ["api_pb2", "connection", "rpc", "variables"]

/-- Python attribute lookup on the `iterm2` module object: raises
`AttributeError` for a name the module does not have.  Attribute names are
case-sensitive. -/
def iterm2GetAttr (attr : String) : Except PyError Unit :=
  if attr ∈ iterm2ModuleAttrs then Except.ok () else Except.error (PyError.attributeError attr)

/-- `async_subscribe_to_profile_change_notification(connection, callback,
guid)`.  The source builds a `ProfileChangeRequest` with the guid and then
evaluates `iterm2.api_PB2.NOTIFY_ON_PROFILE_CHANGE` (note the misspelled
submodule name `api_PB2`) to build the key, so the attribute lookup runs
before any registry mutation or wire traffic. -/
def asyncSubscribeToProfileChangeNotification (r : Registry) (callback : Handler)
    (guid : String) (status : Status) : SubscribeResult :=
  let request : ProfileChangeRequest := { guid := guid }
  match iterm2GetAttr "api_PB2" with
  | Except.error e => { registry := r, requests := [], outcome := Except.error e }
  | Except.ok _ =>
      let key : Key := [PyVal.str guid, PyVal.int NOTIFY_ON_PROFILE_CHANGE]
      asyncSubscribe r true (PyVal.int NOTIFY_ON_PROFILE_CHANGE) callback PyVal.none
        Option.none Option.none Option.none (some key) (some request) status

/-! ## Derived notions used to state the claims -/

/-- The key under which a (subscribing) `_async_subscribe` call registers
its callback: the explicit `key` argument when truthy, otherwise the key
built by `_register_notification_handler` from the session, the optional
RPC signature string and the notification type. -/
def effectiveSubscribeKey (session notificationType : PyVal) (rpcReq : Option RPC)
    (keyArg : Option Key) : Key :=
  if pyTruthyKey keyArg then keyArg.getD []
  else handlerKey session (stringRpcRegistrationRequest rpcReq) notificationType

/-- One operation against the shared registry: a subscribe-direction
`_async_subscribe` call, an `async_unsubscribe` call, or a dispatch of an
inbound message (which never mutates the registry). -/
inductive Op where
  | subscribe (notificationType : PyVal) (callback : Handler) (session : PyVal)
      (rpcRegistrationRequest : Option RPC)
      (keystrokeMonitorRequest : Option KeystrokeMonitorRequest)
      (variableMonitorRequest : Option VariableMonitorRequest)
      (keyArg : Option Key) (profileChangeRequest : Option ProfileChangeRequest)
      (status : Status)
  | unsubscribe (token : Token) (status : Status)
  | dispatch (m : Message)

/-- The registry after one operation. -/
def applyOp (r : Registry) : Op → Registry
  | Op.subscribe nt cb s rr kmr vmr ka pcr st =>
      (asyncSubscribe r true nt cb s rr kmr vmr ka pcr st).registry
  | Op.unsubscribe tok st => (asyncUnsubscribe r tok st).registry
  | Op.dispatch _ => r

/-- The registry after a sequence of operations, starting from `r`. -/
def runOps (r : Registry) (ops : List Op) : Registry := ops.foldl applyOp r

/-- An operation whose wire response did not reject a subscribe attempt:
subscribe operations with an `OK` or `ALREADY_SUBSCRIBED` status (the
statuses of unsubscribe and dispatch operations are unconstrained). -/
def Op.subscribeAccepted : Op → Prop
  | Op.subscribe _ _ _ _ _ _ _ _ st =>
      st = Status.ok ∨ st = Status.alreadySubscribed
  | _ => True

/-- No key of the registry is mapped to an empty handler list. -/
def NoEmptyEntries (r : Registry) : Prop :=
  ∀ k hs, Registry.find r k = some hs → hs ≠ []

/-- The `elif` chain of `_get_handler_key_from_notification` reaches the
`server_originated_rpc_notification` test exactly when the nine
earlier-tested fields are unset: under this condition an RPC message's
derived key is the RPC-shaped one (including the signature string). -/
def Notification.rpcTestedFirst (n : Notification) : Prop :=
  n.keystrokeNotification = Option.none
  ∧ n.screenUpdateNotification = Option.none
  ∧ n.promptNotification = Option.none
  ∧ n.locationChangeNotification = Option.none
  ∧ n.customEscapeSequenceNotification = Option.none
  ∧ n.newSessionNotification = Option.none
  ∧ n.terminateSessionNotification = Option.none
  ∧ n.layoutChangedNotification = Option.none
  ∧ n.focusChangedNotification = Option.none

/-! # Theorems

## Registry lemmas -/

/-! ### Registry lemmas -/

theorem Registry.find_set_self (r : Registry) (k : Key) (v : List Handler) :
    Registry.find (Registry.set r k v) k = some v := by
  induction r with
  | nil => simp [Registry.set, Registry.find]
  | cons hd tl ih =>
      obtain ⟨k', v'⟩ := hd
      by_cases h : k' = k
      · simp [Registry.set, Registry.find, h]
      · simp [Registry.set, Registry.find, h, ih]

theorem Registry.find_set_ne (r : Registry) (k k2 : Key) (v : List Handler)
    (h : k2 ≠ k) : Registry.find (Registry.set r k v) k2 = Registry.find r k2 := by
  have hne : ¬ (k = k2) := fun hh => h hh.symm
  induction r with
  | nil => simp [Registry.set, Registry.find, hne]
  | cons hd tl ih =>
      obtain ⟨k', v'⟩ := hd
      by_cases hk : k' = k
      · subst hk
        simp [Registry.set, Registry.find, hne]
      · simp only [Registry.set, hk, ite_false, Registry.find]
        by_cases hk2 : k' = k2
        · simp [hk2]
        · simp [hk2, ih]

theorem Registry.find_erase_ne (r : Registry) (k k2 : Key) (h : k2 ≠ k) :
    Registry.find (Registry.erase r k) k2 = Registry.find r k2 := by
  have hne : ¬ (k = k2) := fun hh => h hh.symm
  induction r with
  | nil => simp [Registry.erase]
  | cons hd tl ih =>
      obtain ⟨k', v'⟩ := hd
      by_cases hk : k' = k
      · subst hk
        simp [Registry.erase, Registry.find, hne]
      · simp only [Registry.erase, hk, ite_false, Registry.find]
        by_cases hk2 : k' = k2
        · simp [hk2]
        · simp [hk2, ih]

theorem Registry.find_eq_none_of_not_mem_keys (r : Registry) (k : Key)
    (h : k ∉ r.map Prod.fst) : Registry.find r k = Option.none := by
  induction r with
  | nil => simp [Registry.find]
  | cons hd tl ih =>
      obtain ⟨k', v'⟩ := hd
      simp only [List.map_cons, List.mem_cons] at h
      push_neg at h
      have h1 : ¬ (k' = k) := fun hh => h.1 hh.symm
      simp [Registry.find, h1, ih h.2]

theorem Registry.mem_keys_set (r : Registry) (k k' : Key) (v : List Handler)
    (h : k' ∈ (Registry.set r k v).map Prod.fst) :
    k' ∈ r.map Prod.fst ∨ k' = k := by
  induction r with
  | nil =>
      simp [Registry.set] at h
      exact Or.inr h
  | cons hd tl ih =>
      obtain ⟨k2, v2⟩ := hd
      by_cases h2 : k2 = k
      · subst h2
        simp only [Registry.set, eq_self_iff_true, ite_true, List.map_cons,
          List.mem_cons] at h
        rcases h with h | h
        · exact Or.inr h
        · exact Or.inl (by simp only [List.map_cons, List.mem_cons]; exact Or.inr h)
      · simp only [Registry.set, h2, ite_false, List.map_cons, List.mem_cons] at h
        rcases h with h | h
        · exact Or.inl (by simp only [List.map_cons, List.mem_cons]; exact Or.inl h)
        · rcases ih h with h3 | h3
          · exact Or.inl (by simp only [List.map_cons, List.mem_cons]; exact Or.inr h3)
          · exact Or.inr h3

theorem Registry.mem_keys_erase (r : Registry) (k k' : Key)
    (h : k' ∈ (Registry.erase r k).map Prod.fst) : k' ∈ r.map Prod.fst := by
  induction r with
  | nil => simp [Registry.erase] at h
  | cons hd tl ih =>
      obtain ⟨k2, v2⟩ := hd
      by_cases h2 : k2 = k
      · subst h2
        simp only [Registry.erase, eq_self_iff_true, ite_true] at h
        simp only [List.map_cons, List.mem_cons]
        exact Or.inr h
      · simp only [Registry.erase, h2, ite_false, List.map_cons, List.mem_cons] at h
        simp only [List.map_cons, List.mem_cons]
        rcases h with h | h
        · exact Or.inl h
        · exact Or.inr (ih h)

theorem Registry.find_erase_self (r : Registry) (k : Key) (hwf : Registry.WF r) :
    Registry.find (Registry.erase r k) k = Option.none := by
  induction r with
  | nil => simp [Registry.erase, Registry.find]
  | cons hd tl ih =>
      obtain ⟨k', v'⟩ := hd
      unfold Registry.WF at hwf
      simp only [List.map_cons, List.nodup_cons] at hwf
      by_cases hk : k' = k
      · subst hk
        simpa [Registry.erase] using
          Registry.find_eq_none_of_not_mem_keys tl k' hwf.1
      · simp [Registry.erase, Registry.find, hk, ih hwf.2]

theorem Registry.WF_set (r : Registry) (k : Key) (v : List Handler)
    (hwf : Registry.WF r) : Registry.WF (Registry.set r k v) := by
  induction r with
  | nil => simp [Registry.set, Registry.WF]
  | cons hd tl ih =>
      obtain ⟨k', v'⟩ := hd
      unfold Registry.WF at hwf ⊢
      simp only [List.map_cons, List.nodup_cons] at hwf
      by_cases hk : k' = k
      · subst hk
        simpa [Registry.set] using hwf
      · simp only [Registry.set, hk, ite_false, List.map_cons, List.nodup_cons]
        refine ⟨fun hmem => ?_, ih hwf.2⟩
        rcases Registry.mem_keys_set tl k k' v hmem with h3 | h3
        · exact hwf.1 h3
        · exact hk h3

theorem Registry.WF_erase (r : Registry) (k : Key) (hwf : Registry.WF r) :
    Registry.WF (Registry.erase r k) := by
  induction r with
  | nil => simpa [Registry.erase] using hwf
  | cons hd tl ih =>
      obtain ⟨k', v'⟩ := hd
      unfold Registry.WF at hwf ⊢
      simp only [List.map_cons, List.nodup_cons] at hwf
      by_cases hk : k' = k
      · subst hk
        simpa [Registry.erase] using hwf.2
      · simp only [Registry.erase, hk, ite_false, List.map_cons, List.nodup_cons]
        exact ⟨fun hmem => hwf.1 (Registry.mem_keys_erase tl k k' hmem), ih hwf.2⟩

/-! ## String order lemmas -/

theorem charsLe_total (l1 l2 : List Char) :
    charsLe l1 l2 = true ∨ charsLe l2 l1 = true := by
  induction l1 generalizing l2 with
  | nil => left; rfl
  | cons c cs ih =>
      cases l2 with
      | nil => right; rfl
      | cons d ds =>
          by_cases h1 : c.toNat < d.toNat
          · left; simp [charsLe, h1]
          · by_cases h2 : d.toNat < c.toNat
            · right; simp [charsLe, h2]
            · rcases ih ds with h | h
              · left; simp [charsLe, h1, h2, h]
              · right; simp [charsLe, h1, h2, h]

theorem charsLe_trans (l1 l2 l3 : List Char) (h12 : charsLe l1 l2 = true)
    (h23 : charsLe l2 l3 = true) : charsLe l1 l3 = true := by
  induction l1 generalizing l2 l3 with
  | nil => rfl
  | cons c cs ih =>
      cases l2 with
      | nil => simp [charsLe] at h12
      | cons d ds =>
          cases l3 with
          | nil => simp [charsLe] at h23
          | cons e es =>
              simp only [charsLe] at h12 h23 ⊢
              by_cases hcd : c.toNat < d.toNat
              · by_cases hde : d.toNat < e.toNat
                · have : c.toNat < e.toNat := Nat.lt_trans hcd hde
                  simp [this]
                · by_cases hed : e.toNat < d.toNat
                  · simp [hde, hed] at h23
                  · have hde2 : d.toNat = e.toNat := Nat.le_antisymm
                      (Nat.le_of_not_lt hed) (Nat.le_of_not_lt hde)
                    have : c.toNat < e.toNat := hde2 ▸ hcd
                    simp [this]
              · by_cases hdc : d.toNat < c.toNat
                · simp [hcd, hdc] at h12
                · have hcd2 : c.toNat = d.toNat := Nat.le_antisymm
                    (Nat.le_of_not_lt hdc) (Nat.le_of_not_lt hcd)
                  simp only [hcd, hdc, if_false] at h12
                  by_cases hde : d.toNat < e.toNat
                  · have : c.toNat < e.toNat := hcd2 ▸ hde
                    simp [this]
                  · by_cases hed : e.toNat < d.toNat
                    · simp [hde, hed] at h23
                    · simp only [hde, hed, if_false] at h23
                      have hce : ¬ c.toNat < e.toNat := by omega
                      have hec : ¬ e.toNat < c.toNat := by omega
                      simp [hce, hec, ih ds es h12 h23]

theorem charsLe_antisymm (l1 l2 : List Char) (h12 : charsLe l1 l2 = true)
    (h21 : charsLe l2 l1 = true) : l1 = l2 := by
  induction l1 generalizing l2 with
  | nil =>
      cases l2 with
      | nil => rfl
      | cons d ds => simp [charsLe] at h21
  | cons c cs ih =>
      cases l2 with
      | nil => simp [charsLe] at h12
      | cons d ds =>
          simp only [charsLe] at h12 h21
          by_cases hcd : c.toNat < d.toNat
          · have : ¬ d.toNat < c.toNat := by omega
            simp [this, hcd] at h21
          · by_cases hdc : d.toNat < c.toNat
            · simp [hcd, hdc] at h12
            · have htn : c.toNat = d.toNat := by omega
              have hceq : c = d := Char.eq_of_val_eq (UInt32.ext htn)
              simp only [hcd, hdc, if_false] at h12 h21
              rw [hceq, ih ds h12 h21]

/-- The code-point order is total. -/
theorem pyStrLe_total (a b : String) : pyStrLe a b ∨ pyStrLe b a :=
  charsLe_total a.data b.data

/-- The code-point order is transitive. -/
theorem pyStrLe_trans (a b c : String) (h1 : pyStrLe a b) (h2 : pyStrLe b c) :
    pyStrLe a c :=
  charsLe_trans a.data b.data c.data h1 h2

/-- The code-point order is antisymmetric. -/
theorem pyStrLe_antisymm (a b : String) (h1 : pyStrLe a b) (h2 : pyStrLe b a) :
    a = b := by
  have h := charsLe_antisymm a.data b.data h1 h2
  cases a
  cases b
  simp only at h
  rw [h]

/-! ## Registration helper lemmas -/

theorem find_registerImpl_self (r : Registry) (k : Key) (cb : Handler) :
    Registry.find (registerNotificationHandlerImpl r k cb) k
      = some (Registry.findD r k [] ++ [cb]) := by
  unfold registerNotificationHandlerImpl Registry.findD
  cases hfind : Registry.find r k with
  | none => simp [Registry.find_set_self]
  | some l => simp [Registry.find_set_self]

theorem find_registerImpl_ne (r : Registry) (k k2 : Key) (cb : Handler)
    (h : k2 ≠ k) :
    Registry.find (registerNotificationHandlerImpl r k cb) k2 = Registry.find r k2 := by
  unfold registerNotificationHandlerImpl
  cases hfind : Registry.find r k with
  | none => simp [Registry.find_set_ne r k k2 _ h]
  | some l => simp [Registry.find_set_ne r k k2 _ h]

theorem find_unregisterImpl_ne (r : Registry) (k k2 : Key) (cb : Handler)
    (h : k2 ≠ k) :
    Registry.find (unregisterNotificationHandlerImpl r k cb) k2 = Registry.find r k2 := by
  unfold unregisterNotificationHandlerImpl
  cases hfind : Registry.find r k with
  | none => rfl
  | some l =>
      by_cases hm : cb ∈ l
      · simp [hm, Registry.find_set_ne r k k2 _ h]
      · simp [hm]

/-- Undoing an optimistic registration at the same key: the appended
handler's first occurrence is removed, and the (possibly empty) list stays
stored under the key. -/
theorem find_register_unregister_self (r : Registry) (k : Key) (cb : Handler) :
    Registry.find
        (unregisterNotificationHandlerImpl (registerNotificationHandlerImpl r k cb) k cb) k
      = some ((Registry.findD r k [] ++ [cb]).erase cb) := by
  unfold unregisterNotificationHandlerImpl
  have h1 := find_registerImpl_self r k cb
  have hm : cb ∈ Registry.findD r k [] ++ [cb] :=
    List.mem_append_right _ (List.mem_singleton_self cb)
  simp [h1, hm, Registry.find_set_self]

/-! ## `_async_subscribe` unfolding lemmas -/

/-- A subscribe-direction `_async_subscribe` with an `OK` or
`ALREADY_SUBSCRIBED` response: the optimistic registration stands, one
request is sent, and a token is returned (note: when no explicit key was
given the token's key is always the 2-tuple `(session, type)`, even for
RPC registrations). -/
theorem asyncSubscribe_accepted (r : Registry) (nt : PyVal) (cb : Handler) (s : PyVal)
    (rr : Option RPC) (kmr : Option KeystrokeMonitorRequest)
    (vmr : Option VariableMonitorRequest) (ka : Option Key)
    (pcr : Option ProfileChangeRequest) (st : Status)
    (hst : st = Status.ok ∨ st = Status.alreadySubscribed) :
    asyncSubscribe r true nt cb s rr kmr vmr ka pcr st
      = { registry := registerNotificationHandlerImpl r (effectiveSubscribeKey s nt rr ka) cb
          requests := [{ subscribe := true
                         notificationType := nt
                         session := if s = PyVal.none then PyVal.str "all" else s
                         rpcRegistrationRequest := rr
                         keystrokeMonitorRequest := kmr
                         variableMonitorRequest := vmr
                         profileChangeRequest := pcr }]
          outcome := Except.ok (some (if pyTruthyKey ka then (ka.getD [], cb)
            else ([s, nt], cb))) } := by
  unfold asyncSubscribe effectiveSubscribeKey registerNotificationHandler
  rcases hst with hst | hst <;> subst hst <;>
    by_cases hka : pyTruthyKey ka <;> simp [hka]

/-- A subscribe-direction `_async_subscribe` with any other response
status: the optimistic registration is undone through
`_unregister_notification_handler_impl` and a `SubscriptionException`
carrying the status name is raised. -/
theorem asyncSubscribe_rejected (r : Registry) (nt : PyVal) (cb : Handler) (s : PyVal)
    (rr : Option RPC) (kmr : Option KeystrokeMonitorRequest)
    (vmr : Option VariableMonitorRequest) (ka : Option Key)
    (pcr : Option ProfileChangeRequest) (st : Status)
    (hok : st ≠ Status.ok) (hal : st ≠ Status.alreadySubscribed) :
    asyncSubscribe r true nt cb s rr kmr vmr ka pcr st
      = { registry := unregisterNotificationHandlerImpl
            (registerNotificationHandlerImpl r (effectiveSubscribeKey s nt rr ka) cb)
            (effectiveSubscribeKey s nt rr ka) cb
          requests := [{ subscribe := true
                         notificationType := nt
                         session := if s = PyVal.none then PyVal.str "all" else s
                         rpcRegistrationRequest := rr
                         keystrokeMonitorRequest := kmr
                         variableMonitorRequest := vmr
                         profileChangeRequest := pcr }]
          outcome := Except.error (PyError.subscriptionException st.name) } := by
  unfold asyncSubscribe effectiveSubscribeKey registerNotificationHandler
    unregisterNotificationHandler
  by_cases hka : pyTruthyKey ka <;> simp [hka, hok, hal]

/-! ## Claim C1: rollback of a failed subscribe (corrected) -/

/-- Counterexample to C1 as stated: a subscribe call on a previously absent
key `("S9", PROMPT)` whose wire response is `REQUEST_MALFORMED` raises the
exception, but the key created by the call is STILL PRESENT in the
registry afterwards, mapped to the empty list — the registry does not end
in the exact pre-call state and the key is not gone. -/
theorem C1_failed_subscribe_key_left_behind :
    Registry.find ([] : Registry) [PyVal.str "S9", PyVal.int NOTIFY_ON_PROMPT] = Option.none
    ∧ (asyncSubscribe [] true (PyVal.int NOTIFY_ON_PROMPT) 4 (PyVal.str "S9")
        Option.none Option.none Option.none Option.none Option.none
        Status.requestMalformed).outcome
      = Except.error (PyError.subscriptionException "REQUEST_MALFORMED")
    ∧ Registry.find (asyncSubscribe [] true (PyVal.int NOTIFY_ON_PROMPT) 4 (PyVal.str "S9")
        Option.none Option.none Option.none Option.none Option.none
        Status.requestMalformed).registry [PyVal.str "S9", PyVal.int NOTIFY_ON_PROMPT]
      = some [] :=
  ⟨rfl, rfl, rfl⟩

/-- C1 (amended): for every subscribe call whose wire response status is
neither `Ok` nor `AlreadySubscribed`, the call raises a
`SubscriptionException` carrying the status and the first occurrence of the
handler is removed from the key's list; but if the key's entry was created
by this call the key REMAINS in the registry mapped to an empty list
(rather than being deleted), and if the handler was already registered
under the key the surviving list is reordered (the earlier occurrence is
the one removed).  All other keys are untouched. -/
theorem C1_failed_subscribe_rollback (r : Registry) (nt : PyVal) (cb : Handler)
    (s : PyVal) (rr : Option RPC) (kmr : Option KeystrokeMonitorRequest)
    (vmr : Option VariableMonitorRequest) (ka : Option Key)
    (pcr : Option ProfileChangeRequest) (st : Status)
    (hok : st ≠ Status.ok) (hal : st ≠ Status.alreadySubscribed) :
    (asyncSubscribe r true nt cb s rr kmr vmr ka pcr st).outcome
      = Except.error (PyError.subscriptionException st.name)
    ∧ (Registry.find r (effectiveSubscribeKey s nt rr ka) = Option.none →
        Registry.find (asyncSubscribe r true nt cb s rr kmr vmr ka pcr st).registry
          (effectiveSubscribeKey s nt rr ka) = some [])
    ∧ (∀ hs, Registry.find r (effectiveSubscribeKey s nt rr ka) = some hs →
        Registry.find (asyncSubscribe r true nt cb s rr kmr vmr ka pcr st).registry
          (effectiveSubscribeKey s nt rr ka) = some ((hs ++ [cb]).erase cb))
    ∧ (∀ k2, k2 ≠ effectiveSubscribeKey s nt rr ka →
        Registry.find (asyncSubscribe r true nt cb s rr kmr vmr ka pcr st).registry k2
          = Registry.find r k2) := by
  rw [asyncSubscribe_rejected r nt cb s rr kmr vmr ka pcr st hok hal]
  refine ⟨rfl, ?_, ?_, ?_⟩
  · intro hnone
    have h := find_register_unregister_self r (effectiveSubscribeKey s nt rr ka) cb
    rw [h]
    simp [Registry.findD, hnone]
  · intro hs hfind
    have h := find_register_unregister_self r (effectiveSubscribeKey s nt rr ka) cb
    rw [h]
    simp [Registry.findD, hfind]
  · intro k2 hne
    rw [find_unregisterImpl_ne _ _ _ _ hne, find_registerImpl_ne _ _ _ _ hne]

/-- Witness for C1 (amended) at a concrete rejected subscribe. -/
theorem C1_failed_subscribe_rollback_witness :
    (Status.serverError ≠ Status.ok ∧ Status.serverError ≠ Status.alreadySubscribed)
    ∧ ((asyncSubscribe [] true (PyVal.int NOTIFY_ON_KEYSTROKE) 7 (PyVal.str "S1")
        Option.none Option.none Option.none Option.none Option.none
        Status.serverError).outcome
      = Except.error (PyError.subscriptionException Status.serverError.name)
    ∧ (Registry.find [] (effectiveSubscribeKey (PyVal.str "S1")
          (PyVal.int NOTIFY_ON_KEYSTROKE) Option.none Option.none) = Option.none →
        Registry.find (asyncSubscribe [] true (PyVal.int NOTIFY_ON_KEYSTROKE) 7
            (PyVal.str "S1") Option.none Option.none Option.none Option.none Option.none
            Status.serverError).registry
          (effectiveSubscribeKey (PyVal.str "S1") (PyVal.int NOTIFY_ON_KEYSTROKE)
            Option.none Option.none) = some [])
    ∧ (∀ hs, Registry.find [] (effectiveSubscribeKey (PyVal.str "S1")
          (PyVal.int NOTIFY_ON_KEYSTROKE) Option.none Option.none) = some hs →
        Registry.find (asyncSubscribe [] true (PyVal.int NOTIFY_ON_KEYSTROKE) 7
            (PyVal.str "S1") Option.none Option.none Option.none Option.none Option.none
            Status.serverError).registry
          (effectiveSubscribeKey (PyVal.str "S1") (PyVal.int NOTIFY_ON_KEYSTROKE)
            Option.none Option.none) = some ((hs ++ [7]).erase 7))
    ∧ (∀ k2, k2 ≠ effectiveSubscribeKey (PyVal.str "S1")
          (PyVal.int NOTIFY_ON_KEYSTROKE) Option.none Option.none →
        Registry.find (asyncSubscribe [] true (PyVal.int NOTIFY_ON_KEYSTROKE) 7
            (PyVal.str "S1") Option.none Option.none Option.none Option.none Option.none
            Status.serverError).registry k2 = Registry.find [] k2)) :=
  ⟨⟨by decide, by decide⟩,
    C1_failed_subscribe_rollback [] (PyVal.int NOTIFY_ON_KEYSTROKE) 7 (PyVal.str "S1")
      Option.none Option.none Option.none Option.none Option.none Status.serverError
      (by decide) (by decide)⟩

/-! ## Claim C8: the RPC signature codec -/

/-- C8: for every procedure name and argument-name list, the codec returns
`name(` ++ the argument names sorted lexicographically, comma-joined ++ `)`
(stated as: the joined list is a sorted permutation of the input); for every
permutation of the same argument names it returns the same string; and it
returns `None` exactly when given no RPC. -/
theorem C8_signature_codec_sorted_and_order_independent
    (name : String) (args : List String) (rpc2 : RPC)
    (hname : rpc2.name = name) (hperm : rpc2.arguments.Perm args) :
    (∃ l, l.Perm args ∧ List.Sorted pyStrLe l ∧
        stringRpcRegistrationRequest (some { name := name, arguments := args })
          = some (name ++ "(" ++ String.intercalate "," l ++ ")"))
    ∧ stringRpcRegistrationRequest (some rpc2)
        = stringRpcRegistrationRequest (some { name := name, arguments := args })
    ∧ (∀ o : Option RPC, stringRpcRegistrationRequest o = Option.none ↔ o = Option.none) := by
  haveI : IsTotal String pyStrLe := ⟨pyStrLe_total⟩
  haveI : IsTrans String pyStrLe := ⟨pyStrLe_trans⟩
  haveI : IsAntisymm String pyStrLe := ⟨pyStrLe_antisymm⟩
  refine ⟨⟨pySorted args, List.perm_insertionSort pyStrLe args,
      List.sorted_insertionSort pyStrLe args, rfl⟩, ?_, ?_⟩
  · have h1 : (pySorted rpc2.arguments).Perm (pySorted args) :=
      ((List.perm_insertionSort pyStrLe rpc2.arguments).trans hperm).trans
        (List.perm_insertionSort pyStrLe args).symm
    have h2 : pySorted rpc2.arguments = pySorted args :=
      List.eq_of_perm_of_sorted h1 (List.sorted_insertionSort pyStrLe rpc2.arguments)
        (List.sorted_insertionSort pyStrLe args)
    simp [stringRpcRegistrationRequest, hname, h2]
  · intro o
    cases o <;> simp [stringRpcRegistrationRequest]

/-- Witness for C8 at a concrete permuted pair of argument lists. -/
theorem C8_signature_codec_witness :
    ({ name := "f", arguments := ["b", "a"] } : RPC).name = "f"
    ∧ (({ name := "f", arguments := ["b", "a"] } : RPC).arguments).Perm ["a", "b"]
    ∧ ((∃ l, l.Perm ["a", "b"] ∧ List.Sorted pyStrLe l ∧
        stringRpcRegistrationRequest (some { name := "f", arguments := ["a", "b"] })
          = some ("f" ++ "(" ++ String.intercalate "," l ++ ")"))
      ∧ stringRpcRegistrationRequest (some { name := "f", arguments := ["b", "a"] })
          = stringRpcRegistrationRequest (some { name := "f", arguments := ["a", "b"] })
      ∧ (∀ o : Option RPC, stringRpcRegistrationRequest o = Option.none ↔ o = Option.none)) :=
  ⟨rfl, by decide,
    C8_signature_codec_sorted_and_order_independent "f" ["a", "b"]
      { name := "f", arguments := ["b", "a"] } rfl (by decide)⟩

/-! ## Claim C6: second subscribe answered ALREADY_SUBSCRIBED -/

/-- C6: for two subscribe calls with the same (explicit, truthy) key where
the second call's wire response is `ALREADY_SUBSCRIBED` (and the first was
accepted), the second call still returns a token, both handlers are
registered under the key (appended after any pre-existing ones), and the
next message dispatched to that key invokes both handlers, in order. -/
theorem C6_already_subscribed_adds_second_handler
    (r : Registry) (k : Key) (nt : PyVal) (h1 h2 : Handler) (st1 : Status)
    (hk : k ≠ []) (hst1 : st1 = Status.ok ∨ st1 = Status.alreadySubscribed) :
    (asyncSubscribe r true nt h1 PyVal.none Option.none Option.none Option.none
        (some k) Option.none st1).outcome = Except.ok (some (k, h1))
    ∧ (asyncSubscribe
        (asyncSubscribe r true nt h1 PyVal.none Option.none Option.none Option.none
          (some k) Option.none st1).registry
        true nt h2 PyVal.none Option.none Option.none Option.none
        (some k) Option.none Status.alreadySubscribed).outcome
      = Except.ok (some (k, h2))
    ∧ Registry.find (asyncSubscribe
        (asyncSubscribe r true nt h1 PyVal.none Option.none Option.none Option.none
          (some k) Option.none st1).registry
        true nt h2 PyVal.none Option.none Option.none Option.none
        (some k) Option.none Status.alreadySubscribed).registry k
      = some (Registry.findD r k [] ++ [h1, h2])
    ∧ (∀ (m : Message) (sub : PyObj),
        getHandlerKeyFromNotification m.notification = (some k, sub) →
        (asyncDispatchHelper (asyncSubscribe
            (asyncSubscribe r true nt h1 PyVal.none Option.none Option.none Option.none
              (some k) Option.none st1).registry
            true nt h2 PyVal.none Option.none Option.none Option.none
            (some k) Option.none Status.alreadySubscribed).registry m).invocations
          = (Registry.findD r k [] ++ [h1, h2]).map (fun h => (h, some sub))) := by
  have htruthy : pyTruthyKey (some k) = true := by
    unfold pyTruthyKey
    cases k with
    | nil => exact absurd rfl hk
    | cons a l => rfl
  have heff : effectiveSubscribeKey PyVal.none nt Option.none (some k) = k := by
    unfold effectiveSubscribeKey
    rw [htruthy]
    rfl
  have hfst := asyncSubscribe_accepted r nt h1 PyVal.none Option.none Option.none
    Option.none (some k) Option.none st1 hst1
  have hsnd := asyncSubscribe_accepted
    (asyncSubscribe r true nt h1 PyVal.none Option.none Option.none Option.none
      (some k) Option.none st1).registry
    nt h2 PyVal.none Option.none Option.none Option.none (some k) Option.none
    Status.alreadySubscribed (Or.inr rfl)
  have hfind2 :
      Registry.find (registerNotificationHandlerImpl
          (registerNotificationHandlerImpl r k h1) k h2) k
        = some (Registry.findD r k [] ++ [h1, h2]) := by
    rw [find_registerImpl_self, Registry.findD, find_registerImpl_self]
    simp
  refine ⟨?_, ?_, ?_, ?_⟩
  · rw [hfst]
    simp [htruthy, heff]
  · rw [hsnd, hfst]
    simp [htruthy, heff]
  · rw [hsnd, hfst]
    simp only [heff]
    exact hfind2
  · intro m sub hmsg
    rw [hsnd, hfst]
    simp only [heff]
    simp [asyncDispatchHelper, getNotificationHandlers, hmsg, hfind2]

/-- Witness for C6: two keystroke subscriptions for session `S1` against the
empty registry; a matching keystroke message invokes handler `7` then `8`. -/
theorem C6_already_subscribed_adds_second_handler_witness :
    (([PyVal.str "S1", PyVal.int NOTIFY_ON_KEYSTROKE] : Key) ≠ []
      ∧ (Status.ok = Status.ok ∨ Status.ok = Status.alreadySubscribed))
    ∧ ((asyncSubscribe [] true (PyVal.int NOTIFY_ON_KEYSTROKE) 7 PyVal.none Option.none
        Option.none Option.none (some [PyVal.str "S1", PyVal.int NOTIFY_ON_KEYSTROKE])
        Option.none Status.ok).outcome
      = Except.ok (some ([PyVal.str "S1", PyVal.int NOTIFY_ON_KEYSTROKE], 7))
    ∧ (asyncSubscribe
        (asyncSubscribe [] true (PyVal.int NOTIFY_ON_KEYSTROKE) 7 PyVal.none Option.none
          Option.none Option.none (some [PyVal.str "S1", PyVal.int NOTIFY_ON_KEYSTROKE])
          Option.none Status.ok).registry
        true (PyVal.int NOTIFY_ON_KEYSTROKE) 8 PyVal.none Option.none Option.none
        Option.none (some [PyVal.str "S1", PyVal.int NOTIFY_ON_KEYSTROKE]) Option.none
        Status.alreadySubscribed).outcome
      = Except.ok (some ([PyVal.str "S1", PyVal.int NOTIFY_ON_KEYSTROKE], 8))
    ∧ Registry.find (asyncSubscribe
        (asyncSubscribe [] true (PyVal.int NOTIFY_ON_KEYSTROKE) 7 PyVal.none Option.none
          Option.none Option.none (some [PyVal.str "S1", PyVal.int NOTIFY_ON_KEYSTROKE])
          Option.none Status.ok).registry
        true (PyVal.int NOTIFY_ON_KEYSTROKE) 8 PyVal.none Option.none Option.none
        Option.none (some [PyVal.str "S1", PyVal.int NOTIFY_ON_KEYSTROKE]) Option.none
        Status.alreadySubscribed).registry
        [PyVal.str "S1", PyVal.int NOTIFY_ON_KEYSTROKE]
      = some (Registry.findD [] [PyVal.str "S1", PyVal.int NOTIFY_ON_KEYSTROKE] [] ++ [7, 8])
    ∧ (∀ (m : Message) (sub : PyObj),
        getHandlerKeyFromNotification m.notification
          = (some [PyVal.str "S1", PyVal.int NOTIFY_ON_KEYSTROKE], sub) →
        (asyncDispatchHelper (asyncSubscribe
            (asyncSubscribe [] true (PyVal.int NOTIFY_ON_KEYSTROKE) 7 PyVal.none Option.none
              Option.none Option.none (some [PyVal.str "S1", PyVal.int NOTIFY_ON_KEYSTROKE])
              Option.none Status.ok).registry
            true (PyVal.int NOTIFY_ON_KEYSTROKE) 8 PyVal.none Option.none Option.none
            Option.none (some [PyVal.str "S1", PyVal.int NOTIFY_ON_KEYSTROKE]) Option.none
            Status.alreadySubscribed).registry m).invocations
          = (Registry.findD [] [PyVal.str "S1", PyVal.int NOTIFY_ON_KEYSTROKE] [] ++ [7, 8]).map
              (fun h => (h, some sub)))) :=
  ⟨⟨by decide, Or.inl rfl⟩,
    C6_already_subscribed_adds_second_handler [] [PyVal.str "S1", PyVal.int NOTIFY_ON_KEYSTROKE]
      (PyVal.int NOTIFY_ON_KEYSTROKE) 7 8 Status.ok (by decide) (Or.inl rfl)⟩

/-! ## Claim C4: unmatched ServerOriginatedRPC messages -/

/-- C4: for every inbound RPC message (one whose first present union field
is `server_originated_rpc_notification`) whose derived key — including the
signature string — matches no registered handler (neither the exact key nor
the fallback), the dispatcher invokes no handler, returns false, and sends
exactly one error-flagged reply keyed by the message's request id whose
reason is `No such function: <signature> (key was <key>)`; for a message
without an RPC field, no reply is ever sent. -/
theorem C4_unmatched_rpc_sends_single_error_reply (r : Registry) (m : Message) :
    (∀ rpcn : ServerOriginatedRPCNotification,
      m.notification.serverOriginatedRpcNotification = some rpcn →
      Notification.rpcTestedFirst m.notification →
      (getNotificationHandlers r m).1 = [] →
      asyncDispatchHelper r m
        = { invocations := []
            replies := [{ requestId := rpcn.requestId
                          isException := true
                          reason := "No such function: "
                            ++ (rpcn.rpc.name ++ "(" ++
                                String.intercalate "," (pySorted rpcn.rpc.arguments) ++ ")")
                            ++ " (key was "
                            ++ keyRepr (some [PyVal.none,
                                PyVal.int NOTIFY_ON_SERVER_ORIGINATED_RPC,
                                PyVal.str (rpcn.rpc.name ++ "(" ++
                                  String.intercalate "," (pySorted rpcn.rpc.arguments) ++ ")")])
                            ++ ")" }]
            result := false })
    ∧ (m.notification.serverOriginatedRpcNotification = Option.none →
        (asyncDispatchHelper r m).replies = []) := by
  constructor
  · intro rpcn hrpc hfirst hempty
    obtain ⟨h1, h2, h3, h4, h5, h6, h7, h8, h9⟩ := hfirst
    have hkey : getHandlerKeyFromNotification m.notification
        = (some [PyVal.none, PyVal.int NOTIFY_ON_SERVER_ORIGINATED_RPC,
            PyVal.str (rpcn.rpc.name ++ "(" ++
              String.intercalate "," (pySorted rpcn.rpc.arguments) ++ ")")],
           PyObj.notif m.notification) := by
      unfold getHandlerKeyFromNotification
      rw [h1, h2, h3, h4, h5, h6, h7, h8, h9, hrpc]
      simp [stringRpcRegistrationRequest]
    cases hfound : getNotificationHandlers r m with
    | mk l o =>
        have hl : l = [] := by
          rw [hfound] at hempty
          exact hempty
        subst hl
        unfold asyncDispatchHelper
        rw [hfound, hrpc, hkey]
        simp [optStrFormat, stringRpcRegistrationRequest]
  · intro hnone
    cases hfound : getNotificationHandlers r m with
    | mk l o =>
        unfold asyncDispatchHelper
        rw [hfound, hnone]
        by_cases hl : l.isEmpty <;> simp [hl]

/-- Witness for C4: an RPC message for signature `g(a,b)` against the empty
registry. -/
theorem C4_unmatched_rpc_sends_single_error_reply_witness :
    (getNotificationHandlers []
        { notification := { Notification.empty with
            serverOriginatedRpcNotification :=
              some { rpc := { name := "g", arguments := ["b", "a"] }, requestId := 12 } } }).1
      = []
    ∧ Notification.rpcTestedFirst
        ({ notification := { Notification.empty with
            serverOriginatedRpcNotification :=
              some { rpc := { name := "g", arguments := ["b", "a"] }, requestId := 12 } } }
          : Message).notification
    ∧ asyncDispatchHelper []
        { notification := { Notification.empty with
            serverOriginatedRpcNotification :=
              some { rpc := { name := "g", arguments := ["b", "a"] }, requestId := 12 } } }
        = { invocations := []
            replies := [{ requestId := 12
                          isException := true
                          reason := "No such function: "
                            ++ ("g" ++ "(" ++
                                String.intercalate "," (pySorted ["b", "a"]) ++ ")")
                            ++ " (key was "
                            ++ keyRepr (some [PyVal.none,
                                PyVal.int NOTIFY_ON_SERVER_ORIGINATED_RPC,
                                PyVal.str ("g" ++ "(" ++
                                  String.intercalate "," (pySorted ["b", "a"]) ++ ")")])
                            ++ ")" }]
            result := false } :=
  ⟨rfl,
   ⟨rfl, rfl, rfl, rfl, rfl, rfl, rfl, rfl, rfl⟩,
   (C4_unmatched_rpc_sends_single_error_reply []
      { notification := { Notification.empty with
          serverOriginatedRpcNotification :=
            some { rpc := { name := "g", arguments := ["b", "a"] }, requestId := 12 } } }).1
     { rpc := { name := "g", arguments := ["b", "a"] }, requestId := 12 }
     rfl ⟨rfl, rfl, rfl, rfl, rfl, rfl, rfl, rfl, rfl⟩ rfl⟩

/-! ## Dispatcher unfolding lemmas -/

/-- `_get_notification_handlers` as a two-level lookup once the derived key
is known. -/
theorem getNotificationHandlers_eq (r : Registry) (m : Message) (key : Key) (sub : PyObj)
    (hkey : getHandlerKeyFromNotification m.notification = (some key, sub)) :
    getNotificationHandlers r m
      = (match Registry.find r key with
         | some hs => (hs, some sub)
         | Option.none =>
             match Registry.find r [PyVal.none, key.getD 1 PyVal.none] with
             | some hs => (hs, some sub)
             | Option.none => ([], Option.none)) := by
  unfold getNotificationHandlers
  rw [hkey]

/-- The invocation list of `_async_dispatch_helper` is the looked-up handler
list paired with the looked-up payload. -/
theorem asyncDispatchHelper_invocations (r : Registry) (m : Message) :
    (asyncDispatchHelper r m).invocations
      = (getNotificationHandlers r m).1.map
          (fun h => (h, (getNotificationHandlers r m).2)) := rfl

/-- The boolean returned by `_async_dispatch_helper`. -/
theorem asyncDispatchHelper_result (r : Registry) (m : Message) :
    (asyncDispatchHelper r m).result = !(getNotificationHandlers r m).1.isEmpty := rfl

/-- An unsubscribe-direction `_async_subscribe` with an `OK` response:
unregisters locally (a no-op when the key is already gone), sends one
`subscribe=False` request, returns normally. -/
theorem asyncSubscribe_unsub_ok (r : Registry) (nt : PyVal) (cb : Handler) (s : PyVal)
    (rr : Option RPC) (kmr : Option KeystrokeMonitorRequest)
    (vmr : Option VariableMonitorRequest) (ka : Option Key)
    (pcr : Option ProfileChangeRequest) :
    asyncSubscribe r false nt cb s rr kmr vmr ka pcr Status.ok
      = { registry := if pyTruthyKey ka then
            unregisterNotificationHandlerImpl r (ka.getD []) cb
          else unregisterNotificationHandler r s
            (stringRpcRegistrationRequest rr) nt cb
          requests := [{ subscribe := false
                         notificationType := nt
                         session := if s = PyVal.none then PyVal.str "all" else s
                         rpcRegistrationRequest := rr
                         keystrokeMonitorRequest := kmr
                         variableMonitorRequest := vmr
                         profileChangeRequest := pcr }]
          outcome := Except.ok Option.none } := by
  unfold asyncSubscribe
  by_cases hka : pyTruthyKey ka <;> simp [hka]

/-- An unsubscribe-direction `_async_subscribe` with a non-`OK` response:
the registry is untouched, one request was still sent, and a
`SubscriptionException` carrying the status name is raised. -/
theorem asyncSubscribe_unsub_failed (r : Registry) (nt : PyVal) (cb : Handler) (s : PyVal)
    (rr : Option RPC) (kmr : Option KeystrokeMonitorRequest)
    (vmr : Option VariableMonitorRequest) (ka : Option Key)
    (pcr : Option ProfileChangeRequest) (st : Status) (hok : st ≠ Status.ok) :
    asyncSubscribe r false nt cb s rr kmr vmr ka pcr st
      = { registry := r
          requests := [{ subscribe := false
                         notificationType := nt
                         session := if s = PyVal.none then PyVal.str "all" else s
                         rpcRegistrationRequest := rr
                         keystrokeMonitorRequest := kmr
                         variableMonitorRequest := vmr
                         profileChangeRequest := pcr }]
          outcome := Except.error (PyError.subscriptionException st.name) } := by
  unfold asyncSubscribe
  simp [hok]

/-! ## Claim C7: unsubscribing a default-shape token -/

/-- C7: for a token `((scope, type), handler)` of a default-shape
subscription whose handler is registered under the key: unsubscribe removes
the handler; if other handlers remain under the key no wire request is
sent; if it was the last handler the key is deleted and exactly one reverse
`subscribe=False` request is sent, after which (given the handler is not
also reachable through the global fallback entry) dispatching a matching
message invokes the handler zero times; and a non-`OK` status on the
reverse request raises a `SubscriptionException`. -/
theorem C7_default_shape_unsubscribe
    (r : Registry) (hwf : Registry.WF r) (sv nt : PyVal) (h : Handler)
    (status : Status) (hs0 : List Handler)
    (hfind : Registry.find r [sv, nt] = some hs0) (hmem : h ∈ hs0) :
    (hs0.erase h ≠ [] →
      asyncUnsubscribe r ([sv, nt], h) status
        = { registry := Registry.set r [sv, nt] (hs0.erase h)
            requests := []
            outcome := Except.ok () })
    ∧ (hs0.erase h = [] →
        (asyncUnsubscribe r ([sv, nt], h) status).requests
          = [{ subscribe := false
               notificationType := nt
               session := if sv = PyVal.none then PyVal.str "all" else sv
               rpcRegistrationRequest := Option.none
               keystrokeMonitorRequest := Option.none
               variableMonitorRequest := Option.none
               profileChangeRequest := Option.none }]
        ∧ (status = Status.ok →
            (asyncUnsubscribe r ([sv, nt], h) status).outcome = Except.ok ()
            ∧ (asyncUnsubscribe r ([sv, nt], h) status).registry
                = Registry.erase r [sv, nt]
            ∧ (∀ (m : Message) (sub : PyObj),
                getHandlerKeyFromNotification m.notification = (some [sv, nt], sub) →
                h ∉ Registry.findD (Registry.erase r [sv, nt]) [PyVal.none, nt] [] →
                (((asyncDispatchHelper
                    (asyncUnsubscribe r ([sv, nt], h) status).registry m).invocations.map
                      Prod.fst).count h = 0)))
        ∧ (status ≠ Status.ok →
            (asyncUnsubscribe r ([sv, nt], h) status).outcome
              = Except.error (PyError.subscriptionException status.name))) := by
  have herase_self : Registry.find (Registry.erase r [sv, nt]) [sv, nt] = Option.none :=
    Registry.find_erase_self r [sv, nt] hwf
  constructor
  · intro hne
    have hne2 : (hs0.erase h).isEmpty = false := by
      cases hcase : hs0.erase h with
      | nil => exact absurd hcase hne
      | cons a l => rfl
    simp [asyncUnsubscribe, hfind, hmem, hne2]
  · intro hempty
    have hres : asyncUnsubscribe r ([sv, nt], h) status
        = { registry := (asyncSubscribe (Registry.erase r [sv, nt]) false nt h sv
              Option.none Option.none Option.none Option.none Option.none status).registry
            requests := (asyncSubscribe (Registry.erase r [sv, nt]) false nt h sv
              Option.none Option.none Option.none Option.none Option.none status).requests
            outcome := match (asyncSubscribe (Registry.erase r [sv, nt]) false nt h sv
              Option.none Option.none Option.none Option.none Option.none status).outcome with
              | Except.ok _ => Except.ok ()
              | Except.error e => Except.error e } := by
      simp [asyncUnsubscribe, hfind, hmem, hempty]
    have hunreg : unregisterNotificationHandler (Registry.erase r [sv, nt]) sv
        (stringRpcRegistrationRequest Option.none) nt h = Registry.erase r [sv, nt] := by
      unfold unregisterNotificationHandler unregisterNotificationHandlerImpl
        stringRpcRegistrationRequest handlerKey
      rw [herase_self]
    by_cases hst : status = Status.ok
    · subst hst
      have hregeq : (asyncUnsubscribe r ([sv, nt], h) Status.ok).registry
          = Registry.erase r [sv, nt] := by
        rw [hres]
        show (asyncSubscribe (Registry.erase r [sv, nt]) false nt h sv
          Option.none Option.none Option.none Option.none Option.none Status.ok).registry
          = Registry.erase r [sv, nt]
        rw [asyncSubscribe_unsub_ok]
        show (if pyTruthyKey Option.none = true then
            unregisterNotificationHandlerImpl (Registry.erase r [sv, nt])
              ((Option.none : Option Key).getD []) h
          else unregisterNotificationHandler (Registry.erase r [sv, nt]) sv
            (stringRpcRegistrationRequest Option.none) nt h)
          = Registry.erase r [sv, nt]
        rw [if_neg (by exact Bool.false_ne_true), hunreg]
      refine ⟨?_, ?_, ?_⟩
      · rw [hres]
        show (asyncSubscribe (Registry.erase r [sv, nt]) false nt h sv
          Option.none Option.none Option.none Option.none Option.none Status.ok).requests = _
        rw [asyncSubscribe_unsub_ok]
      · intro _
        refine ⟨?_, hregeq, ?_⟩
        · rw [hres]
          show (match (asyncSubscribe (Registry.erase r [sv, nt]) false nt h sv
              Option.none Option.none Option.none Option.none Option.none Status.ok).outcome with
              | Except.ok _ => Except.ok ()
              | Except.error e => Except.error e) = Except.ok ()
          rw [asyncSubscribe_unsub_ok]
        · intro m sub hkey hnotglobal
          rw [hregeq]
          have hgnh := getNotificationHandlers_eq (Registry.erase r [sv, nt]) m
            [sv, nt] sub hkey
          rw [herase_self] at hgnh
          have hfb : ([sv, nt] : Key).getD 1 PyVal.none = nt := rfl
          rw [hfb] at hgnh
          cases hfall : Registry.find (Registry.erase r [sv, nt]) [PyVal.none, nt] with
          | some hsf =>
              rw [hfall] at hgnh
              have hnot : h ∉ hsf := by
                rw [Registry.findD, hfall] at hnotglobal
                exact hnotglobal
              rw [asyncDispatchHelper_invocations, hgnh]
              have hmap : ((hsf.map (fun x => (x, ((hsf, some sub) :
                  List Handler × Option PyObj).2))).map Prod.fst) = hsf := by
                rw [List.map_map]
                exact List.map_id hsf
              show (List.map Prod.fst (List.map (fun x => (x, ((hsf, some sub) :
                  List Handler × Option PyObj).2)) hsf)).count h = 0
              rw [hmap]
              exact List.count_eq_zero_of_not_mem hnot
          | none =>
              rw [hfall] at hgnh
              rw [asyncDispatchHelper_invocations, hgnh]
              rfl
      · intro hne
        exact absurd rfl hne
    · refine ⟨?_, fun hok => absurd hok hst, fun _ => ?_⟩
      · rw [hres]
        show (asyncSubscribe (Registry.erase r [sv, nt]) false nt h sv
          Option.none Option.none Option.none Option.none Option.none status).requests = _
        rw [asyncSubscribe_unsub_failed _ _ _ _ _ _ _ _ _ _ hst]
      · rw [hres]
        show (match (asyncSubscribe (Registry.erase r [sv, nt]) false nt h sv
            Option.none Option.none Option.none Option.none Option.none status).outcome with
            | Except.ok _ => Except.ok ()
            | Except.error e => Except.error e)
          = Except.error (PyError.subscriptionException status.name)
        rw [asyncSubscribe_unsub_failed _ _ _ _ _ _ _ _ _ _ hst]

/-- Witness for C7: registry holding only handler `7` under
`("S1", KEYSTROKE)`; unsubscribing its token with an `OK` reverse response
sends one `subscribe=False` request, empties the registry, and a matching
keystroke message then invokes handler `7` zero times. -/
theorem C7_default_shape_unsubscribe_witness :
    Registry.WF [([PyVal.str "S1", PyVal.int NOTIFY_ON_KEYSTROKE], [7])]
    ∧ Registry.find [([PyVal.str "S1", PyVal.int NOTIFY_ON_KEYSTROKE], [7])]
        [PyVal.str "S1", PyVal.int NOTIFY_ON_KEYSTROKE] = some [7]
    ∧ (7 : Handler) ∈ [7]
    ∧ ([7] : List Handler).erase 7 = []
    ∧ (asyncUnsubscribe [([PyVal.str "S1", PyVal.int NOTIFY_ON_KEYSTROKE], [7])]
        ([PyVal.str "S1", PyVal.int NOTIFY_ON_KEYSTROKE], 7) Status.ok).requests
      = [{ subscribe := false
           notificationType := PyVal.int NOTIFY_ON_KEYSTROKE
           session := if PyVal.str "S1" = PyVal.none then PyVal.str "all" else PyVal.str "S1"
           rpcRegistrationRequest := Option.none
           keystrokeMonitorRequest := Option.none
           variableMonitorRequest := Option.none
           profileChangeRequest := Option.none }]
    ∧ (asyncUnsubscribe [([PyVal.str "S1", PyVal.int NOTIFY_ON_KEYSTROKE], [7])]
        ([PyVal.str "S1", PyVal.int NOTIFY_ON_KEYSTROKE], 7) Status.ok).outcome
      = Except.ok ()
    ∧ (((asyncDispatchHelper
          (asyncUnsubscribe [([PyVal.str "S1", PyVal.int NOTIFY_ON_KEYSTROKE], [7])]
            ([PyVal.str "S1", PyVal.int NOTIFY_ON_KEYSTROKE], 7) Status.ok).registry
          { notification := { Notification.empty with
              keystrokeNotification := some { session := "S1", payload := 3 } } }).invocations.map
            Prod.fst).count 7 = 0) :=
  ⟨by simp [Registry.WF], rfl, by decide, by decide,
    ((C7_default_shape_unsubscribe
        [([PyVal.str "S1", PyVal.int NOTIFY_ON_KEYSTROKE], [7])] (by simp [Registry.WF])
        (PyVal.str "S1") (PyVal.int NOTIFY_ON_KEYSTROKE) 7 Status.ok [7]
        rfl (by decide)).2 (by decide)).1,
    (((C7_default_shape_unsubscribe
        [([PyVal.str "S1", PyVal.int NOTIFY_ON_KEYSTROKE], [7])] (by simp [Registry.WF])
        (PyVal.str "S1") (PyVal.int NOTIFY_ON_KEYSTROKE) 7 Status.ok [7]
        rfl (by decide)).2 (by decide)).2.1 rfl).1,
    ((((C7_default_shape_unsubscribe
        [([PyVal.str "S1", PyVal.int NOTIFY_ON_KEYSTROKE], [7])] (by simp [Registry.WF])
        (PyVal.str "S1") (PyVal.int NOTIFY_ON_KEYSTROKE) 7 Status.ok [7]
        rfl (by decide)).2 (by decide)).2.1 rfl).2.2
      { notification := { Notification.empty with
          keystrokeNotification := some { session := "S1", payload := 3 } } }
      (PyObj.keystrokeN { session := "S1", payload := 3 }) rfl (by decide))⟩

/-! ## Invariant-preservation lemmas (for claim C2) -/

theorem WF_registerImpl (r : Registry) (k : Key) (cb : Handler)
    (hwf : Registry.WF r) :
    Registry.WF (registerNotificationHandlerImpl r k cb) := by
  unfold registerNotificationHandlerImpl
  cases Registry.find r k with
  | none => exact Registry.WF_set r k _ hwf
  | some l => exact Registry.WF_set r k _ hwf

theorem WF_unregisterImpl (r : Registry) (k : Key) (cb : Handler)
    (hwf : Registry.WF r) :
    Registry.WF (unregisterNotificationHandlerImpl r k cb) := by
  unfold unregisterNotificationHandlerImpl
  cases Registry.find r k with
  | none => exact hwf
  | some l =>
      by_cases hm : cb ∈ l
      · simpa [hm] using Registry.WF_set r k (l.erase cb) hwf
      · simpa [hm] using hwf

theorem unregisterImpl_absent (r : Registry) (k : Key) (cb : Handler)
    (habs : Registry.find r k = Option.none) :
    unregisterNotificationHandlerImpl r k cb = r := by
  unfold unregisterNotificationHandlerImpl
  rw [habs]

theorem NoEmpty_registerImpl (r : Registry) (k : Key) (cb : Handler)
    (hne : NoEmptyEntries r) :
    NoEmptyEntries (registerNotificationHandlerImpl r k cb) := by
  intro k2 hs hfind
  by_cases hk : k2 = k
  · subst hk
    rw [find_registerImpl_self] at hfind
    cases hfind
    simp
  · rw [find_registerImpl_ne _ _ _ _ hk] at hfind
    exact hne k2 hs hfind

theorem NoEmpty_set (r : Registry) (k : Key) (v : List Handler)
    (hne : NoEmptyEntries r) (hv : v ≠ []) :
    NoEmptyEntries (Registry.set r k v) := by
  intro k2 hs hfind
  by_cases hk : k2 = k
  · subst hk
    rw [Registry.find_set_self] at hfind
    cases hfind
    exact hv
  · rw [Registry.find_set_ne _ _ _ _ hk] at hfind
    exact hne k2 hs hfind

theorem NoEmpty_erase (r : Registry) (k : Key) (hwf : Registry.WF r)
    (hne : NoEmptyEntries r) : NoEmptyEntries (Registry.erase r k) := by
  intro k2 hs hfind
  by_cases hk : k2 = k
  · subst hk
    rw [Registry.find_erase_self r k2 hwf] at hfind
    cases hfind
  · rw [Registry.find_erase_ne _ _ _ hk] at hfind
    exact hne k2 hs hfind

/-- A handler list that empties when one occurrence of a present handler is
removed is exactly the singleton of that handler. -/
theorem eq_singleton_of_erase_isEmpty (l : List Handler) (x : Handler)
    (hm : x ∈ l) (he : (l.erase x).isEmpty = true) : l = [x] := by
  cases l with
  | nil => cases hm
  | cons a as =>
      by_cases hax : a = x
      · subst hax
        rw [List.erase_cons_head] at he
        cases as with
        | nil => rfl
        | cons b bs => simp at he
      · rw [List.erase_cons_tail (by simpa using hax)] at he
        simp at he

/-- The registry after an `async_unsubscribe` call is one of: unchanged; the
key's list shrunk in place to a nonempty remainder; the key deleted; or the
key deleted followed by the internal unregister of the reverse call (which
targets the same key). -/
theorem asyncUnsubscribe_registry_cases (r : Registry) (key : Key) (coro : Handler)
    (st : Status) :
    (asyncUnsubscribe r (key, coro) st).registry = r
    ∨ (∃ l, l ≠ [] ∧ (asyncUnsubscribe r (key, coro) st).registry = Registry.set r key l)
    ∨ (asyncUnsubscribe r (key, coro) st).registry = Registry.erase r key
    ∨ (asyncUnsubscribe r (key, coro) st).registry
        = unregisterNotificationHandlerImpl (Registry.erase r key) key coro := by
  cases hfind : Registry.find r key with
  | none =>
      left
      simp [asyncUnsubscribe, hfind]
  | some coros =>
      by_cases hm : coro ∈ coros
      · by_cases hemp : (coros.erase coro).isEmpty = true
        · -- the key's list empties: `del`, then the reverse request
          have hcoros : coros = [coro] := eq_singleton_of_erase_isEmpty coros coro hm hemp
          subst hcoros
          rcases key with _ | ⟨a, _ | ⟨b, _ | ⟨c, rest⟩⟩⟩
          · -- []: `assert False` after the deletion
            right; right; left
            simp [asyncUnsubscribe, hfind, List.getLast?]
          · -- [a]: not a 2-tuple; unpacking a 1-tuple as 4 fails either way
            right; right; left
            simp [asyncUnsubscribe, hfind]
            split <;> rfl
          · -- [a, b]: the default reverse path
            by_cases hst : st = Status.ok
            · subst hst
              right; right; right
              have heq : (asyncUnsubscribe r ([a, b], coro) Status.ok).registry
                  = (asyncSubscribe (Registry.erase r [a, b]) false b coro a
                      Option.none Option.none Option.none Option.none Option.none
                      Status.ok).registry := by
                simp [asyncUnsubscribe, hfind]
              rw [heq, asyncSubscribe_unsub_ok]
              rfl
            · right; right; left
              have heq : (asyncUnsubscribe r ([a, b], coro) st).registry
                  = (asyncSubscribe (Registry.erase r [a, b]) false b coro a
                      Option.none Option.none Option.none Option.none Option.none
                      st).registry := by
                simp [asyncUnsubscribe, hfind]
              rw [heq, asyncSubscribe_unsub_failed _ _ _ _ _ _ _ _ _ _ hst]
          · -- three or more elements
            rcases rest with _ | ⟨d, _ | ⟨e, rest2⟩⟩
            · -- [a, b, c]: unpacking a 3-tuple as 4 fails either way
              right; right; left
              simp [asyncUnsubscribe, hfind]
              split <;> rfl
            · -- [a, b, c, d]: the variable-change reverse path when the marker matches
              by_cases hlast : d = PyVal.int NOTIFY_ON_VARIABLE_CHANGE
              · subst hlast
                by_cases hst : st = Status.ok
                · subst hst
                  right; right; right
                  have heq : (asyncUnsubscribe r
                      ([a, b, c, PyVal.int NOTIFY_ON_VARIABLE_CHANGE], coro)
                      Status.ok).registry
                      = (asyncSubscribe
                          (Registry.erase r [a, b, c, PyVal.int NOTIFY_ON_VARIABLE_CHANGE])
                          false (PyVal.int NOTIFY_ON_VARIABLE_CHANGE) coro
                          PyVal.none Option.none Option.none
                          (some { name := c, scope := a, identifier := b })
                          (some [a, b, c, PyVal.int NOTIFY_ON_VARIABLE_CHANGE])
                          Option.none Status.ok).registry := by
                    simp [asyncUnsubscribe, hfind]
                  rw [heq, asyncSubscribe_unsub_ok]
                  rfl
                · right; right; left
                  have heq : (asyncUnsubscribe r
                      ([a, b, c, PyVal.int NOTIFY_ON_VARIABLE_CHANGE], coro) st).registry
                      = (asyncSubscribe
                          (Registry.erase r [a, b, c, PyVal.int NOTIFY_ON_VARIABLE_CHANGE])
                          false (PyVal.int NOTIFY_ON_VARIABLE_CHANGE) coro
                          PyVal.none Option.none Option.none
                          (some { name := c, scope := a, identifier := b })
                          (some [a, b, c, PyVal.int NOTIFY_ON_VARIABLE_CHANGE])
                          Option.none st).registry := by
                    simp [asyncUnsubscribe, hfind]
                  rw [heq, asyncSubscribe_unsub_failed _ _ _ _ _ _ _ _ _ _ hst]
              · right; right; left
                simp [asyncUnsubscribe, hfind, hlast]
            · -- five or more elements: unpacking as 4 fails either way
              right; right; left
              simp [asyncUnsubscribe, hfind]
              split <;> rfl
        · -- handlers remain: in-place shrink
          right; left
          refine ⟨coros.erase coro, ?_, ?_⟩
          · intro hnil
            rw [hnil] at hemp
            exact hemp rfl
          · simp [asyncUnsubscribe, hfind, hm, hemp]
      · left
        simp [asyncUnsubscribe, hfind, hm]

/-- One registry operation preserves well-formedness, and — provided a
subscribe operation's wire response accepted it — the no-empty-entries
invariant. -/
theorem applyOp_preserves (r : Registry) (op : Op) (hwf : Registry.WF r)
    (hne : NoEmptyEntries r) (hgood : op.subscribeAccepted) :
    Registry.WF (applyOp r op) ∧ NoEmptyEntries (applyOp r op) := by
  cases op with
  | dispatch m => exact ⟨hwf, hne⟩
  | subscribe nt cb s rr kmr vmr ka pcr st =>
      have hst : st = Status.ok ∨ st = Status.alreadySubscribed := hgood
      show Registry.WF (asyncSubscribe r true nt cb s rr kmr vmr ka pcr st).registry
        ∧ NoEmptyEntries (asyncSubscribe r true nt cb s rr kmr vmr ka pcr st).registry
      rw [asyncSubscribe_accepted r nt cb s rr kmr vmr ka pcr st hst]
      exact ⟨WF_registerImpl _ _ _ hwf, NoEmpty_registerImpl _ _ _ hne⟩
  | unsubscribe tok st =>
      obtain ⟨key, coro⟩ := tok
      show Registry.WF (asyncUnsubscribe r (key, coro) st).registry
        ∧ NoEmptyEntries (asyncUnsubscribe r (key, coro) st).registry
      rcases asyncUnsubscribe_registry_cases r key coro st with h | ⟨l, hl, h⟩ | h | h <;> rw [h]
      · exact ⟨hwf, hne⟩
      · exact ⟨Registry.WF_set r key l hwf, NoEmpty_set r key l hne hl⟩
      · exact ⟨Registry.WF_erase r key hwf, NoEmpty_erase r key hwf hne⟩
      · rw [unregisterImpl_absent _ _ _ (Registry.find_erase_self r key hwf)]
        exact ⟨Registry.WF_erase r key hwf, NoEmpty_erase r key hwf hne⟩

/-- Both invariants hold after any accepted operation sequence. -/
theorem runOps_preserves (ops : List Op) :
    ∀ r, Registry.WF r → NoEmptyEntries r → (∀ op ∈ ops, op.subscribeAccepted) →
      Registry.WF (runOps r ops) ∧ NoEmptyEntries (runOps r ops) := by
  induction ops with
  | nil =>
      intro r hwf hne _
      exact ⟨hwf, hne⟩
  | cons op ops ih =>
      intro r hwf hne hgood
      have hstep := applyOp_preserves r op hwf hne (hgood op (List.mem_cons_self op ops))
      have hrest := ih (applyOp r op) hstep.1 hstep.2
        (fun o ho => hgood o (List.mem_cons_of_mem op ho))
      simpa [runOps, List.foldl_cons] using hrest

/-! ## Claim C2: no empty entries (corrected) -/

/-- Counterexample to C2 as stated: the one-operation sequence consisting of
a subscribe for `("S2", SCREEN_UPDATE)` whose wire response is
`NOT_SUBSCRIBED` leaves the registry containing that key mapped to the
empty handler list. -/
theorem C2_failed_subscribe_leaves_empty_entry :
    Registry.find (runOps []
        [Op.subscribe (PyVal.int NOTIFY_ON_SCREEN_UPDATE) 6 (PyVal.str "S2")
          Option.none Option.none Option.none Option.none Option.none
          Status.notSubscribed])
      [PyVal.str "S2", PyVal.int NOTIFY_ON_SCREEN_UPDATE] = some [] := rfl

/-- C2 (amended): for every sequence of subscribe, unsubscribe and dispatch
operations in which no subscribe is rejected by the wire response, the
registry (starting empty) never contains a key mapped to an empty handler
list: `async_unsubscribe` deletes a key whose list empties, and accepted
subscribes only append.  (A rejected subscribe breaks the invariant — its
rollback keeps the emptied key, see the counterexample.) -/
theorem C2_no_empty_entries_when_no_rejected_subscribe (ops : List Op)
    (hgood : ∀ op ∈ ops, op.subscribeAccepted) :
    NoEmptyEntries (runOps [] ops) := by
  have hwf : Registry.WF ([] : Registry) := by simp [Registry.WF]
  have hne : NoEmptyEntries ([] : Registry) := by
    intro k hs hfind
    simp [Registry.find] at hfind
  exact (runOps_preserves ops [] hwf hne hgood).2

/-- Witness for C2 (amended): a subscribe, a duplicate subscribe answered
`ALREADY_SUBSCRIBED`, an unsubscribe of the first token and a dispatch. -/
theorem C2_no_empty_entries_witness :
    (∀ op ∈ [Op.subscribe (PyVal.int NOTIFY_ON_KEYSTROKE) 7 (PyVal.str "S1")
        Option.none Option.none Option.none Option.none Option.none Status.ok,
      Op.subscribe (PyVal.int NOTIFY_ON_KEYSTROKE) 8 (PyVal.str "S1")
        Option.none Option.none Option.none Option.none Option.none
        Status.alreadySubscribed,
      Op.unsubscribe ([PyVal.str "S1", PyVal.int NOTIFY_ON_KEYSTROKE], 7) Status.ok,
      Op.dispatch { notification := { Notification.empty with
        keystrokeNotification := some { session := "S1", payload := 5 } } }],
        op.subscribeAccepted)
    ∧ NoEmptyEntries (runOps []
        [Op.subscribe (PyVal.int NOTIFY_ON_KEYSTROKE) 7 (PyVal.str "S1")
          Option.none Option.none Option.none Option.none Option.none Status.ok,
        Op.subscribe (PyVal.int NOTIFY_ON_KEYSTROKE) 8 (PyVal.str "S1")
          Option.none Option.none Option.none Option.none Option.none
          Status.alreadySubscribed,
        Op.unsubscribe ([PyVal.str "S1", PyVal.int NOTIFY_ON_KEYSTROKE], 7) Status.ok,
        Op.dispatch { notification := { Notification.empty with
          keystrokeNotification := some { session := "S1", payload := 5 } } }]) :=
  ⟨by
    intro op hop
    simp only [List.mem_cons, List.not_mem_nil, or_false] at hop
    rcases hop with h | h | h | h <;> subst h <;>
      simp [Op.subscribeAccepted],
   C2_no_empty_entries_when_no_rejected_subscribe _ (by
    intro op hop
    simp only [List.mem_cons, List.not_mem_nil, or_false] at hop
    rcases hop with h | h | h | h <;> subst h <;>
      simp [Op.subscribeAccepted])⟩

/-! ## Claim C3: session-to-global fallback (corrected) -/

/-- Counterexample to C3 as stated: after a failed subscribe for
`("S1", KEYSTROKE)` (which leaves that key present with an empty list) and
a successful global keystroke subscription of handler `9`, a keystroke
message for session `S1` has no handler registered under its exact key but
`9` registered under the global key — yet dispatch invokes nothing (zero
times, not once), because the lookup falls back only when the exact key is
ABSENT, and the empty leftover entry shadows the fallback. -/
theorem C3_empty_entry_shadows_fallback :
    Registry.findD (asyncSubscribeToKeystrokeNotification
        (asyncSubscribe [] true (PyVal.int NOTIFY_ON_KEYSTROKE) 7 (PyVal.str "S1")
          Option.none Option.none Option.none Option.none Option.none
          Status.serverError).registry 9 Option.none Status.ok).registry
      [PyVal.str "S1", PyVal.int NOTIFY_ON_KEYSTROKE] [] = []
    ∧ Registry.find (asyncSubscribeToKeystrokeNotification
        (asyncSubscribe [] true (PyVal.int NOTIFY_ON_KEYSTROKE) 7 (PyVal.str "S1")
          Option.none Option.none Option.none Option.none Option.none
          Status.serverError).registry 9 Option.none Status.ok).registry
      [PyVal.none, PyVal.int NOTIFY_ON_KEYSTROKE] = some [9]
    ∧ (asyncDispatchHelper (asyncSubscribeToKeystrokeNotification
        (asyncSubscribe [] true (PyVal.int NOTIFY_ON_KEYSTROKE) 7 (PyVal.str "S1")
          Option.none Option.none Option.none Option.none Option.none
          Status.serverError).registry 9 Option.none Status.ok).registry
        { notification := { Notification.empty with
            keystrokeNotification := some { session := "S1", payload := 1 } } }).invocations
      = [] :=
  ⟨rfl, rfl, rfl⟩

/-- C3 (amended): for every message whose derived key carries a non-null
scope, if the exact key is ABSENT from the registry (not merely empty of
handlers — a key present with an empty list suppresses the fallback) and the
global `(None, key[1])` key holds the handler list `hs`, dispatch invokes
exactly the handlers of `hs`, in order; in particular a handler registered
exactly once globally is invoked exactly once.  And for every message whose
derived key has a null scope, the handlers dispatch invokes are read from a
null-scoped registry entry (never a session-scoped one). -/
theorem C3_fallback_only_when_exact_key_absent
    (r : Registry) (m : Message) (key : Key) (sub : PyObj)
    (hkey : getHandlerKeyFromNotification m.notification = (some key, sub)) :
    (key.getD 0 PyVal.none ≠ PyVal.none →
      Registry.find r key = Option.none →
      ∀ hs, Registry.find r [PyVal.none, key.getD 1 PyVal.none] = some hs →
      (asyncDispatchHelper r m).invocations = hs.map (fun h => (h, some sub))
      ∧ (∀ g, hs.count g = 1 →
          ((asyncDispatchHelper r m).invocations.map Prod.fst).count g = 1))
    ∧ (key.getD 0 PyVal.none = PyVal.none →
        (asyncDispatchHelper r m).invocations = []
        ∨ ∃ k0, k0.getD 0 PyVal.none = PyVal.none
            ∧ (asyncDispatchHelper r m).invocations
                = (Registry.findD r k0 []).map (fun h => (h, some sub))) := by
  have hgnh := getNotificationHandlers_eq r m key sub hkey
  constructor
  · intro hscope habsent hs hfall
    rw [habsent, hfall] at hgnh
    have hinv : (asyncDispatchHelper r m).invocations
        = hs.map (fun h => (h, some sub)) := by
      rw [asyncDispatchHelper_invocations, hgnh]
    refine ⟨hinv, ?_⟩
    intro g hcount
    rw [hinv]
    have hmap : (hs.map (fun h => (h, some sub))).map Prod.fst = hs := by
      rw [List.map_map]
      exact List.map_id hs
    rw [hmap]
    exact hcount
  · intro hscope
    cases hfind : Registry.find r key with
    | some hs =>
        rw [hfind] at hgnh
        right
        refine ⟨key, hscope, ?_⟩
        rw [asyncDispatchHelper_invocations, hgnh]
        simp [Registry.findD, hfind]
    | none =>
        cases hfall : Registry.find r [PyVal.none, key.getD 1 PyVal.none] with
        | some hs =>
            rw [hfind, hfall] at hgnh
            right
            refine ⟨[PyVal.none, key.getD 1 PyVal.none], rfl, ?_⟩
            rw [asyncDispatchHelper_invocations, hgnh]
            unfold Registry.findD
            rw [hfall]
            rfl
        | none =>
            rw [hfind, hfall] at hgnh
            left
            rw [asyncDispatchHelper_invocations, hgnh]
            rfl

/-- Witness for C3 (amended): a keystroke message for session `S1` against
a registry holding only a global keystroke handler `9`. -/
theorem C3_fallback_only_when_exact_key_absent_witness :
    getHandlerKeyFromNotification ({ notification := { Notification.empty with
        keystrokeNotification := some { session := "S1", payload := 1 } } }
        : Message).notification
      = (some [PyVal.str "S1", PyVal.int NOTIFY_ON_KEYSTROKE],
         PyObj.keystrokeN { session := "S1", payload := 1 })
    ∧ ([PyVal.str "S1", PyVal.int NOTIFY_ON_KEYSTROKE] : Key).getD 0 PyVal.none ≠ PyVal.none
    ∧ Registry.find [([PyVal.none, PyVal.int NOTIFY_ON_KEYSTROKE], [9])]
        [PyVal.str "S1", PyVal.int NOTIFY_ON_KEYSTROKE] = Option.none
    ∧ Registry.find [([PyVal.none, PyVal.int NOTIFY_ON_KEYSTROKE], [9])]
        [PyVal.none, ([PyVal.str "S1", PyVal.int NOTIFY_ON_KEYSTROKE] : Key).getD 1 PyVal.none]
        = some [9]
    ∧ ((asyncDispatchHelper [([PyVal.none, PyVal.int NOTIFY_ON_KEYSTROKE], [9])]
          { notification := { Notification.empty with
              keystrokeNotification := some { session := "S1", payload := 1 } } }).invocations
        = [9].map (fun h => (h, some (PyObj.keystrokeN { session := "S1", payload := 1 })))
      ∧ (∀ g, List.count g [9] = 1 →
          (((asyncDispatchHelper [([PyVal.none, PyVal.int NOTIFY_ON_KEYSTROKE], [9])]
            { notification := { Notification.empty with
                keystrokeNotification := some { session := "S1", payload := 1 } } }).invocations.map
              Prod.fst).count g = 1))) :=
  ⟨rfl, by decide, rfl, rfl,
    (C3_fallback_only_when_exact_key_absent
      [([PyVal.none, PyVal.int NOTIFY_ON_KEYSTROKE], [9])]
      { notification := { Notification.empty with
          keystrokeNotification := some { session := "S1", payload := 1 } } }
      [PyVal.str "S1", PyVal.int NOTIFY_ON_KEYSTROKE]
      (PyObj.keystrokeN { session := "S1", payload := 1 }) rfl).1
      (by decide) rfl [9] rfl⟩

/-! ## Claim C9: profile-change subscription (code bug) -/

/-- C9 (code bug): the claim says that for every guid,
`async_subscribe_to_profile_change_notification` registers the handler
under `(guid, ProfileChange)`, sends a subscribe request carrying a
`ProfileChangeRequest` with that guid, and returns a token on `OK`.  The
source instead evaluates `iterm2.api_PB2.NOTIFY_ON_PROFILE_CHANGE` — a
misspelling of `api_pb2` — so every call raises `AttributeError` before
registering anything or sending any wire request. -/
theorem C9_profile_change_subscription_raises_attribute_error
    (r : Registry) (callback : Handler) (guid : String) (status : Status) :
    asyncSubscribeToProfileChangeNotification r callback guid status
      = { registry := r, requests := [],
          outcome := Except.error (PyError.attributeError "api_PB2") } := rfl

/-! ## Claim C10: unsubscribe with an absent key -/

/-- C10: for every token whose key is absent from the registry, a call to
`async_unsubscribe` raises `KeyError` before any wire request is sent and
leaves the registry unchanged (public unsubscribe is not idempotent). -/
theorem C10_unsubscribe_missing_key_keyerror
    (r : Registry) (key : Key) (coro : Handler) (status : Status)
    (habsent : Registry.find r key = Option.none) :
    asyncUnsubscribe r (key, coro) status
      = { registry := r, requests := [], outcome := Except.error PyError.keyError } := by
  unfold asyncUnsubscribe
  simp [habsent]

/-- Witness for C10: unsubscribing a keystroke token against the empty
registry. -/
theorem C10_unsubscribe_missing_key_keyerror_witness :
    Registry.find [] [PyVal.str "S1", PyVal.int NOTIFY_ON_KEYSTROKE] = Option.none
    ∧ asyncUnsubscribe [] ([PyVal.str "S1", PyVal.int NOTIFY_ON_KEYSTROKE], 7) Status.ok
        = { registry := [], requests := [], outcome := Except.error PyError.keyError } :=
  ⟨rfl, C10_unsubscribe_missing_key_keyerror []
    [PyVal.str "S1", PyVal.int NOTIFY_ON_KEYSTROKE] 7 Status.ok rfl⟩

/-! ## Claim C5: what the dispatcher passes to handlers (code bug) -/

/-- C5 (code bug): the claim (and the subscription functions' own doc
comments) say every matched handler receives the decoded sub-notification
of the message's kind — the inner payload, not the outer notification
object.  `_get_handler_key_from_notification` does not reassign its
`notification` local in the `server_originated_rpc_notification`,
`broadcast_domains_changed` and `profile_changed_notification` branches, so
for those kinds the handler receives the OUTER `Notification`.  Evaluated
here end-to-end at an RPC subscription (signature `f()`, handler `5`) and a
matching inbound RPC message: the single invocation carries
`PyObj.notif` (the outer object), not the inner
`ServerOriginatedRPCNotification`. -/
theorem C5_rpc_dispatch_passes_outer_notification :
    (asyncDispatchHelper
        (asyncSubscribe [] true (PyVal.int NOTIFY_ON_SERVER_ORIGINATED_RPC) 5 PyVal.none
          (some { name := "f", arguments := [] }) Option.none Option.none Option.none
          Option.none Status.ok).registry
        { notification := { Notification.empty with
            serverOriginatedRpcNotification :=
              some { rpc := { name := "f", arguments := [] }, requestId := 77 } } }).invocations
      = [(5, some (PyObj.notif { Notification.empty with
            serverOriginatedRpcNotification :=
              some { rpc := { name := "f", arguments := [] }, requestId := 77 } }))]
    ∧ (asyncDispatchHelper
        (asyncSubscribe [] true (PyVal.int NOTIFY_ON_SERVER_ORIGINATED_RPC) 5 PyVal.none
          (some { name := "f", arguments := [] }) Option.none Option.none Option.none
          Option.none Status.ok).registry
        { notification := { Notification.empty with
            serverOriginatedRpcNotification :=
              some { rpc := { name := "f", arguments := [] }, requestId := 77 } } }).result
      = true :=
  ⟨rfl, rfl⟩

end ITerm2Notif
